import Mathlib

set_option maxRecDepth 1000000
set_option exponentiation.threshold 1000000

/-!  MT19937 as implemented in CPython's `_randommodule.c` and used by
`random.Random(seed)`.  The 624-word `uint32 mt[]` array is represented as a
single natural number packed in 32-bit limbs: word `i` of the array is
`(mt >>> (32*i)) % 2^32`.  All stored words are `< 2^32`, so `mtSet` below is
exactly "write word `i`".  -/

def U32 (x : Nat) : Nat := x % 4294967296

/-- Read `mt[i]` from the packed state. -/
def mtGet (mt i : Nat) : Nat := (mt >>> (32 * i)) % 4294967296

/-- Write `mt[i] := v` (for `v < 2^32`) in the packed state. -/
def mtSet (mt i v : Nat) : Nat :=
  mt % 2 ^ (32 * i) + v * 2 ^ (32 * i) + mt / 2 ^ (32 * (i + 1)) * 2 ^ (32 * (i + 1))

/-- One step of `init_genrand`: `mt[i] = 1812433253 * (mt[i-1] ^ (mt[i-1] >> 30)) + i`.
State: (i, mt[i-1], packed array so far). -/
def stepInit (st : Nat × Nat × Nat) : Nat × Nat × Nat :=
  let next := U32 (1812433253 * (st.2.1 ^^^ (st.2.1 >>> 30)) + st.1)
  (st.1 + 1, next, mtSet st.2.2 st.1 next)

/-- Model of `init_genrand(s)`: fill all 624 words starting from `mt[0] = s`. -/
def initGenrand (s : Nat) : Nat :=
  (Nat.iterate stepInit 623 (1, U32 s, U32 s)).2.2

/-- One step of the first mixing loop of `init_by_array`. State: (i, j, mt). -/
def stepIba1 (key : List Nat) (st : Nat × Nat × Nat) : Nat × Nat × Nat :=
  let i := st.1
  let j := st.2.1
  let mt := st.2.2
  let prev := mtGet mt (i-1)
  let v := U32 ((mtGet mt i ^^^ U32 ((prev ^^^ (prev >>> 30)) * 1664525)) + key.getD j 0 + j)
  let mt1 := mtSet mt i v
  let p := if i + 1 ≥ 624 then (1, mtSet mt1 0 (mtGet mt1 623)) else (i+1, mt1)
  let j1 := if j + 1 ≥ key.length then 0 else j + 1
  (p.1, j1, p.2)

/-- One step of the second mixing loop of `init_by_array`. State: (i, mt). -/
def stepIba2 (st : Nat × Nat) : Nat × Nat :=
  let i := st.1
  let mt := st.2
  let prev := mtGet mt (i-1)
  let v := ((mtGet mt i ^^^ U32 ((prev ^^^ (prev >>> 30)) * 1566083941)) + 4294967296 - i % 4294967296) % 4294967296
  let mt1 := mtSet mt i v
  if i + 1 ≥ 624 then (1, mtSet mt1 0 (mtGet mt1 623)) else (i+1, mt1)

/-- Model of `init_by_array(key)`: `init_genrand(19650218)`, both mixing loops, then
`mt[0] = 0x80000000`. -/
def initByArray (key : List Nat) : Nat :=
  let st1 := Nat.iterate (stepIba1 key) (max 624 key.length) (1, 0, initGenrand 19650218)
  let st2 := Nat.iterate stepIba2 623 (st1.1, st1.2.2)
  mtSet st2.2 0 2147483648

/-- Split a nonnegative integer seed into 32-bit limbs, least significant
first, as CPython's `random_seed` does before calling `init_by_array`. -/
def toChunks : Nat → Nat → List Nat
  | 0, _ => []
  | fuel+1, n => if n = 0 then [] else (n % 4294967296) :: toChunks fuel (n / 4294967296)

def pyKey (n : Nat) : List Nat := if n = 0 then [0] else toChunks n n

/-- The generator state: packed word array plus the next-output index. -/
structure MTState where
  mt : Nat
  index : Nat
deriving Repr, DecidableEq

/-- Model of `random.Random(seed)` for a nonnegative int seed: `init_by_array` on the
seed's 32-bit limbs; the index starts at 624 so the first draw regenerates. -/
def pyRandomInit (seed : Nat) : MTState := ⟨initByArray (pyKey seed), 624⟩

/-- One step of the block-generation loop (`genrand_uint32`'s refill). -/
def stepTwist (st : Nat × Nat) : Nat × Nat :=
  let kk := st.1
  let mt := st.2
  let y := (mtGet mt kk &&& 2147483648) ||| (mtGet mt ((kk+1) % 624) &&& 2147483647)
  let v := mtGet mt ((kk + 397) % 624) ^^^ (y >>> 1) ^^^ (if y % 2 = 1 then 2567483615 else 0)
  (kk + 1, mtSet mt kk v)

def twist (mt : Nat) : Nat := (Nat.iterate stepTwist 624 (0, mt)).2

/-- The output tempering of `genrand_uint32`. -/
def temper (y : Nat) : Nat :=
  let y1 := y ^^^ (y >>> 11)
  let y2 := y1 ^^^ ((y1 <<< 7) &&& 2636928640)
  let y3 := y2 ^^^ ((y2 <<< 15) &&& 4022730752)
  y3 ^^^ (y3 >>> 18)

/-- Model of `genrand_uint32`: refill (twist) when the block is exhausted, then output
the next tempered word. -/
def genrandUint32 (s : MTState) : Nat × MTState :=
  if s.index ≥ 624 then
    (temper (mtGet (twist s.mt) 0), ⟨twist s.mt, 1⟩)
  else
    (temper (mtGet s.mt s.index), ⟨s.mt, s.index + 1⟩)

/-- Model of `getrandbits(k)` for `1 ≤ k ≤ 32`: the top `k` bits of one output word. -/
def getrandbits (k : Nat) (s : MTState) : Nat × MTState :=
  let p := genrandUint32 s
  (p.1 >>> (32 - k), p.2)

/-- The retry loop of `_randbelow_with_getrandbits`, with explicit fuel
modelling the (probabilistically terminating) `while r >= n` loop. -/
def randbelowLoop : Nat → Nat → Nat → MTState → Option (Nat × MTState)
  | 0, _, _, _ => none
  | fuel+1, k, n, s =>
    let p := getrandbits k s
    if p.1 < n then some (p.1, p.2) else randbelowLoop fuel k n p.2

/-- Model of `n.bit_length()` (structural, with fuel `≥ n`). -/
def bitLenAux : Nat → Nat → Nat
  | 0, _ => 0
  | fuel+1, n => if n = 0 then 0 else bitLenAux fuel (n / 2) + 1

def bit_length (n : Nat) : Nat := bitLenAux n n

/-- Model of `_randbelow(n)`: returns 0 outright for `n = 0`, else draws
`getrandbits(n.bit_length())` until the draw is `< n`. -/
def randbelow (fuel : Nat) (n : Nat) (s : MTState) : Option (Nat × MTState) :=
  if n = 0 then some (0, s) else randbelowLoop fuel (bit_length n) n s
/-!  ## Data model

An entry of the store, as built by `add_entry` in `app.py`:
`{"id": ..., "text": ..., "author": ..., "history": ..., "images": [...]}`. -/

structure Entry where
  id : String
  text : String
  author : String
  history : String
  images : List String
deriving DecidableEq

instance : Inhabited Entry := ⟨⟨"", "", "", "", []⟩⟩

/-- The parsed JSON document `{"quotes": [...], "poems": [...]}`.  A missing
key, read through `data.get(key, [])`, is modelled as the empty list. -/
structure Store where
  quotes : List Entry
  poems : List Entry
deriving DecidableEq

/-- A calendar date as supplied by `datetime.date.today()`. -/
structure PyDate where
  year : Nat
  month : Nat
  day : Nat
deriving DecidableEq

/-- Model of `datetime.date` invariants (Python dates range over years 1..9999). -/
def isValidDate (d : PyDate) : Prop :=
  1 ≤ d.year ∧ d.year ≤ 9999 ∧ 1 ≤ d.month ∧ d.month ≤ 12 ∧ 1 ≤ d.day ∧ d.day ≤ 31

/-! ## The date seed: `int(today.strftime("%Y%m%d"))`

`strftime` renders the year zero-padded to 4 digits and month/day to 2, and
`int` parses the decimal digit string.  We model the digit string as a list of
digit values. -/

/-- Base-10 digits of `n`, least significant first (empty for 0); `fuel ≥ n`
suffices for the recursion. -/
def toDecDigitsRev : Nat → Nat → List Nat
  | 0, _ => []
  | fuel+1, n => if n = 0 then [] else (n % 10) :: toDecDigitsRev fuel (n / 10)

/-- Base-10 digits of `n`, most significant first. -/
def decDigits (n : Nat) : List Nat := (toDecDigitsRev n n).reverse

/-- Zero-pad a digit string on the left to width `w`. -/
def padLeft (w : Nat) (ds : List Nat) : List Nat := List.replicate (w - ds.length) 0 ++ ds

/-- The digit string produced by `today.strftime("%Y%m%d")`. -/
def strftimeYmd (d : PyDate) : List Nat :=
  padLeft 4 (decDigits d.year) ++ padLeft 2 (decDigits d.month) ++ padLeft 2 (decDigits d.day)

/-- Model of `int(...)` on a decimal digit string. -/
def intOfDigits (ds : List Nat) : Nat := ds.foldl (fun a d => a * 10 + d) 0

/-- Model of `seed = int(today.strftime("%Y%m%d"))`. -/
def pySeed (d : PyDate) : Nat := intOfDigits (strftimeYmd d)

/-- Value of a little-endian digit string (proof helper for `intOfDigits`). -/
def valLE : List Nat → Nat
  | [] => 0
  | d :: ds => d + 10 * valLE ds

/-! ## `random.sample`, `random.choice` (CPython 3.11 `random.py`)

`sample(population, k)` keeps a shrinking pool when `n <= setsize` and a set of
already-chosen indices otherwise.  All call sites in this repository have
`k = min(3, n) ≤ 5`, so `setsize` is always 21. -/

/-- Model of `setsize = 21` (`+ 4 ** ceil(log(k*3, 4))` when `k > 5`; the source
computes that with float `math.log` - call sites here always have `k ≤ 3`,
so only the `21` branch is ever taken; `Nat.clog` stands in for the float
computation on the unused branch). -/
def sampleSetsize (k : Nat) : Nat := if k ≤ 5 then 21 else 21 + 4 ^ Nat.clog 4 (3 * k)

/-- The pool branch of `sample`: `j = randbelow(n-i); result[i] = pool[j];
pool[j] = pool[n-i-1]`.  State: remaining picks `rem`, active pool size `m`
(`= n - i`), the pool itself. -/
def samplePoolLoop : Nat → Nat → Nat → List Entry → MTState → Option (List Entry × MTState)
  | _, 0, _, _, s => some ([], s)
  | fuel, rem+1, m, pool, s =>
    match randbelow fuel m s with
    | none => none
    | some (j, s1) =>
      match samplePoolLoop fuel rem (m-1) (pool.set j (pool.getD (m-1) default)) s1 with
      | none => none
      | some (rest, s2) => some (pool.getD j default :: rest, s2)

/-- The inner `while j in selected: j = randbelow(n)` retry loop of the set
branch, with fuel for the probabilistically terminating loop. -/
def freshIndex : Nat → Nat → List Nat → MTState → Option (Nat × MTState)
  | 0, _, _, _ => none
  | fuel+1, n, sel, s =>
    match randbelow (fuel+1) n s with
    | none => none
    | some (j, s1) => if j ∈ sel then freshIndex fuel n sel s1 else some (j, s1)

/-- The set branch of `sample`: track selected indices, retry on repeats. -/
def sampleSetLoop : Nat → Nat → Nat → List Nat → List Entry → MTState → Option (List Entry × MTState)
  | _, 0, _, _, _, s => some ([], s)
  | fuel, rem+1, n, sel, pop, s =>
    match freshIndex fuel n sel s with
    | none => none
    | some (j, s1) =>
      match sampleSetLoop fuel rem n (j :: sel) pop s1 with
      | none => none
      | some (rest, s2) => some (pop.getD j default :: rest, s2)

/-- Model of `random.Random.sample(population, k)`.  Returns `none` for the
`ValueError` on `k > n` and on fuel exhaustion of the retry loops. -/
def sample (fuel : Nat) (pop : List Entry) (k : Nat) (s : MTState) : Option (List Entry × MTState) :=
  if k ≤ pop.length then
    if pop.length ≤ sampleSetsize k then samplePoolLoop fuel k pop.length pop s
    else sampleSetLoop fuel k pop.length [] pop s
  else none

/-- Model of `random.Random.choice(seq) = seq[randbelow(len(seq))]`; `IndexError`
(here `none`) on an empty sequence. -/
def choice (fuel : Nat) (seq : List Entry) (s : MTState) : Option (Entry × MTState) :=
  if seq.length = 0 then none
  else
    match randbelow fuel seq.length s with
    | none => none
    | some (i, s1) => some (seq.getD i default, s1)

/-! ## The daily selector

`select_daily_content(data)` in `generate_page.py` (the `index` route in
`app.py` inlines the same code).  The current date, read from the system
clock via `date.today()`, is passed explicitly; `fuel` bounds the
probabilistically-terminating rejection loops of `_randbelow`. -/

/-- Model of `seed = int(today.strftime("%Y%m%d")); rng = random.Random(seed);`
`selected_quotes = rng.sample(quotes, min(3, len(quotes)));`
`selected_poem = rng.choice(poems) if poems else None`. -/
def select_daily_content (fuel : Nat) (data : Store) (today : PyDate) :
    Option (List Entry × Option Entry) :=
  match sample fuel data.quotes (min 3 data.quotes.length) (pyRandomInit (pySeed today)) with
  | none => none
  | some (qs, s1) =>
    if data.poems.isEmpty then some (qs, none)
    else
      match choice fuel data.poems s1 with
      | none => none
      | some (p, _) => some (qs, some p)

/-! ## Persistence (`load_data` / `save_data`)

The backing file holds a JSON document; `json.load`/`json.dump` are modelled
at the parsed-document level (a `Json` tree), which is the granularity at
which the spec states round-tripping ("semantically equal, same entries in
the same order"). -/

inductive Json where
  | null : Json
  | str : String → Json
  | num : Int → Json
  | arr : List Json → Json
  | obj : List (String × Json) → Json

/-- The state of the backing file `data/entries.json` on disk. -/
inductive FileState where
  | missing : FileState
  | malformed : FileState
  | content : Json → FileState

/-- What a load attempt produces: the parsed document, a `json` ParseError,
or an uncaught `FileNotFoundError`. -/
inductive LoadOutcome where
  | ok : Json → LoadOutcome
  | parseError : LoadOutcome
  | fileNotFound : LoadOutcome

def LoadOutcome.isFileNotFound : LoadOutcome → Bool
  | LoadOutcome.fileNotFound => true
  | _ => false

/-- The document for the empty store, `{"quotes": [], "poems": []}`. -/
def emptyStoreJson : Json := Json.obj [("quotes", Json.arr []), ("poems", Json.arr [])]

namespace App

/-- Model of `app.py::load_data`: `if not DATA_FILE.exists(): return {"quotes": [],
"poems": []}`, else `json.load` (which raises on malformed input). -/
def load_data : FileState → LoadOutcome
  | FileState.missing => LoadOutcome.ok emptyStoreJson
  | FileState.malformed => LoadOutcome.parseError
  | FileState.content j => LoadOutcome.ok j

/-- Model of `app.py::save_data`: writes `json.dump(data)` wholesale (the
`mkdir(parents=True, exist_ok=True)` side effect has no observable effect on
the document). -/
def save_data (doc : Json) : FileState := FileState.content doc

end App

namespace GenPage

/-- Model of `generate_page.py::load_data`: `open(DATA_FILE)` with **no** existence
check, so a missing file raises `FileNotFoundError`; `json.load` raises on
malformed input. -/
def load_data : FileState → LoadOutcome
  | FileState.missing => LoadOutcome.fileNotFound
  | FileState.malformed => LoadOutcome.parseError
  | FileState.content j => LoadOutcome.ok j

end GenPage

/-! ## The admin form (`app.py::add_entry`)

`request.form.get` yields `none` for an absent field.  The fresh
`uuid.uuid4().hex[:8]` suffix is an explicit input.  `load_data()` and
`save_data(data)` are modelled by the store argument and the first result
component: `none` there means `save_data` was never called. -/

/-- Python `str.isspace()`: the exact set of code points CPython's
`str.strip()` removes - `\t`, `\n`, `\x0b`, `\x0c`, `\r`, `\x1c`-`\x1f`,
space, `\x85`, `\xa0`, and the Unicode space separators `\u1680`,
`\u2000`-`\u200a`, `\u2028`, `\u2029`, `\u202f`, `\u205f`, `\u3000`. -/
def pyIsSpace (c : Char) : Bool :=
  decide ((9 ≤ c.toNat ∧ c.toNat ≤ 13) ∨ (28 ≤ c.toNat ∧ c.toNat ≤ 31) ∨ c.toNat = 32 ∨
    c.toNat = 133 ∨ c.toNat = 160 ∨ c.toNat = 5760 ∨ (8192 ≤ c.toNat ∧ c.toNat ≤ 8202) ∨
    c.toNat = 8232 ∨ c.toNat = 8233 ∨ c.toNat = 8239 ∨ c.toNat = 8287 ∨ c.toNat = 12288)

/-- Python `str.strip()`: drop the `str.isspace()` characters from both ends. -/
def pyStrip (s : String) : String :=
  ⟨((s.data.dropWhile pyIsSpace).reverse.dropWhile pyIsSpace).reverse⟩

/-- Python `str.split(",")`: split at every comma (no collapsing). -/
def splitCommaAux : List Char → List Char → List (List Char)
  | [], acc => [acc.reverse]
  | ch :: rest, acc =>
    if ch = ',' then acc.reverse :: splitCommaAux rest [] else splitCommaAux rest (ch :: acc)

def pySplitComma (s : String) : List String := (splitCommaAux s.data []).map (fun l => ⟨l⟩)

/-- Python `str.replace("\n", "<br>")`. -/
def replaceNlBrAux : List Char → List Char
  | [] => []
  | c :: rest =>
    if c = '\n' then '<' :: 'b' :: 'r' :: '>' :: replaceNlBrAux rest else c :: replaceNlBrAux rest

def pyReplaceNlBr (s : String) : String := ⟨replaceNlBrAux s.data⟩

structure Form where
  entry_type : Option String
  text : Option String
  author : Option String
  history : Option String
  images : Option String
deriving DecidableEq

inductive AddOutcome where
  | validationError : AddOutcome
  | added : String → AddOutcome
deriving DecidableEq

/-- Model of `[img.strip() for img in images_raw.split(",") if img.strip()]` when
`images_raw` is non-empty, else `[]`. -/
def splitImages (images_raw : String) : List String :=
  if images_raw = "" then []
  else ((pySplitComma images_raw).map pyStrip).filter (fun t => t ≠ "")

/-- Model of `app.py::add_entry`.  Returns the store passed to `save_data` (or `none`
if validation failed and nothing was persisted) together with the flashed
outcome. -/
def add_entry (form : Form) (freshHex : String) (store : Store) : Option Store × AddOutcome :=
  let entry_type := form.entry_type
  let text := pyStrip (form.text.getD "")
  let author := pyStrip (form.author.getD "")
  let history := pyStrip (form.history.getD "")
  let images_raw := pyStrip (form.images.getD "")
  if text = "" ∨ author = "" then (none, AddOutcome.validationError)
  else
    let images := splitImages images_raw
    let entry : Entry :=
      ⟨(if entry_type = some "quote" then "q" else "p") ++ freshHex, text, author, history, images⟩
    if entry_type = some "quote" then
      (some ⟨store.quotes ++ [entry], store.poems⟩, AddOutcome.added "quote")
    else
      (some ⟨store.quotes, store.poems ++ [entry]⟩, AddOutcome.added "poem")

/-! ## The enrichment fetch (`generate_page.py::fetch_apod`) and renderer

The network interaction of `requests.get` is modelled as an explicit outcome;
`fetch_apod` wraps everything in `try/except Exception: return None`. -/

/-- The fields `fetch_apod` projects out of the APOD JSON response with
`data.get(...)` (each may be absent). -/
structure ApodResponse where
  url : Option String
  hdurl : Option String
  title : Option String
  explanation : Option String
  media_type : Option String
  copyright : Option String
deriving DecidableEq

/-- Possible outcomes of `requests.get(url, timeout=10)` + `raise_for_status`
+ `response.json()`. -/
inductive FetchOutcome where
  | success : ApodResponse → FetchOutcome
  | connectionError : FetchOutcome
  | timeoutExpired : FetchOutcome
  | httpError : FetchOutcome
  | invalidJson : FetchOutcome
deriving DecidableEq

def FetchOutcome.isFailure : FetchOutcome → Bool
  | FetchOutcome.success _ => false
  | _ => true

/-- Model of `fetch_apod`: on any raised exception the handler returns `None`. -/
def fetch_apod : FetchOutcome → Option ApodResponse
  | FetchOutcome.success d => some d
  | _ => none

/-- Model of `<div class="images">...</div>` for a non-empty image list, else `""`. -/
def imagesHtml (alt : String) (imgs : List String) : String :=
  if imgs.isEmpty then ""
  else
    "<div class=\"images\">"
      ++ String.join (imgs.map (fun im => "<img src=\"" ++ im ++ "\" alt=\"" ++ alt ++ "\">"))
      ++ "</div>"

/-- The collapsible history block for a non-empty history, else `""` (the
static toggle-button SVG markup is abbreviated to its text). -/
def historyHtml (h : String) : String :=
  if h = "" then ""
  else
    "<button class=\"history-toggle\" onclick=\"toggleHistory(this)\">History</button><div class=\"history-content\">"
      ++ h ++ "</div>"

/-- One quote block of `generate_html`. -/
def quoteHtml (q : Entry) : String :=
  "<div class=\"entry\"><p class=\"entry-text\">\"" ++ q.text
    ++ "\"</p><p class=\"entry-author\">— " ++ q.author ++ "</p>"
    ++ imagesHtml "Quote image" q.images ++ historyHtml q.history ++ "</div>"

def quotesHtml (qs : List Entry) : String := String.join (qs.map quoteHtml)

/-- The poem block: line breaks become `<br>`; `""` when there is no poem. -/
def poemHtml : Option Entry → String
  | none => ""
  | some p =>
      "<div class=\"entry\"><p class=\"entry-text\">" ++ pyReplaceNlBr p.text
        ++ "</p><p class=\"entry-author\">— " ++ p.author ++ "</p>"
        ++ imagesHtml "Poem image" p.images ++ historyHtml p.history ++ "</div>"

/-- The APOD media section: present only when the fetch succeeded **and** the
response has a `url`; `<iframe>` for videos, `<img>` (preferring `hdurl` for
the link target) otherwise. -/
def apodImageHtml : Option ApodResponse → String
  | none => ""
  | some a =>
    match a.url with
    | none => ""
    | some u =>
      if a.media_type = some "video" then
        "<section class=\"apod-section\"><h2>Astronomy Picture of the Day</h2><div class=\"apod-media\"><iframe src=\""
          ++ u ++ "\" frameborder=\"0\" allowfullscreen></iframe></div><p class=\"apod-title\">"
          ++ (a.title.getD "") ++ "</p></section>"
      else
        "<section class=\"apod-section\"><h2>Astronomy Picture of the Day</h2><div class=\"apod-media\"><a href=\""
          ++ (match a.hdurl with | some h => h | none => u) ++ "\" target=\"_blank\"><img src=\""
          ++ u ++ "\" alt=\"" ++ (a.title.getD "NASA APOD") ++ "\"></a></div><p class=\"apod-title\">"
          ++ (a.title.getD "") ++ "</p></section>"

/-- The APOD description section at the bottom of the page; like the media
section it is `""` unless the fetch succeeded with a `url`. -/
def apodDescriptionHtml : Option ApodResponse → String
  | none => ""
  | some a =>
    match a.url with
    | none => ""
    | some _ =>
      "<section class=\"apod-description\"><h2>About Today\x27s Astronomy Picture</h2><p class=\"apod-explanation\">"
        ++ (a.explanation.getD "") ++ "</p>"
        ++ (match a.copyright with
            | some c => "<p class=\"apod-copyright\">Image Credit: " ++ c ++ "</p>"
            | none => "")
        ++ "<p class=\"apod-credit\">Image courtesy of NASA APOD</p></section>"

/-- The static page prelude (doctype, fonts and the full inline CSS of the
template, abbreviated to a marker since no claim depends on its text). -/
def pageHead : String := "<!DOCTYPE html><html lang=\"en\"><head>[inline styles]</head><body><div class=\"container\">"

def pageFoot : String := "<footer><p>New inspiration every day</p></footer></div>[toggle script]</body></html>"

/-- Model of `generate_page.py::generate_html`: assemble the page from the date, the
APOD sections, the quote blocks and the poem block, in the template's order. -/
def generate_html (today : String) (quotes : List Entry) (poem : Option Entry)
    (apod : Option ApodResponse) : String :=
  pageHead
    ++ "<header><h1>Daily Inspiration</h1><p class=\"date\">" ++ today ++ "</p></header><main>"
    ++ apodImageHtml apod
    ++ "<h2>Today\x27s Quotes</h2>" ++ quotesHtml quotes
    ++ "<h2>Today\x27s Poem</h2>" ++ poemHtml poem
    ++ apodDescriptionHtml apod
    ++ "</main>" ++ pageFoot

/-- Model of `generate_page.py::main`, after the store has been loaded and parsed:
select, fetch the enrichment, render.  `none` only on fuel exhaustion of the
selector's rejection loops. -/
def generate_page_main (fuel : Nat) (data : Store) (today : PyDate) (todayStr : String)
    (net : FetchOutcome) : Option String :=
  match select_daily_content fuel data today with
  | none => none
  | some (qs, p) => some (generate_html todayStr qs p (fetch_apod net))

/-! ## Concrete fixtures used by witnesses and counterexamples -/

def eA : Entry := ⟨"qa", "A", "a", "", []⟩
def eB : Entry := ⟨"qb", "B", "b", "", []⟩
def eC : Entry := ⟨"qc", "C", "c", "", []⟩
def eD : Entry := ⟨"qd", "D", "d", "", []⟩
def pX : Entry := ⟨"px", "X", "x", "", []⟩
def pY : Entry := ⟨"py", "Y", "y", "", []⟩

/-- A store with four distinct quotes and two poems. -/
def wStore : Store := ⟨[eA, eB, eC, eD], [pX, pY]⟩

/-- A store whose quotes list holds the same entry three times. -/
def dupStore : Store := ⟨[eA, eA, eA], []⟩

/-- 2024-03-07, the date used in the spec's own example. -/
def date0 : PyDate := ⟨2024, 3, 7⟩
/-- The packed MT19937 word array produced by `random.Random(20240307)`. -/
def mtSeeded20240307 : Nat := 46617392851501629354163145860825767954375778637283853629522567416150894340016426316276569867795512856838885005741118190769779118187942445737633392965315433665980547081408707684979150776552919456275792819239906733287285288997426394826259244353283730557208395859138560541333405321069798513637230860334502623249420436147280195143521749487993321410488822037015742596151998114353183714659020255211754371936008808083215963413384197580958922116324203737758665315006939711586104354752604604197863948848294068973063080878787392836921651329632648661405854099257635620579673838159583183617837907844757999220315753517187940130259650782462653915075455734446682733914722148771745587656611120520975832486435197904266001045139301102457914063193539068438663101806967364527080370640652565252394425309243406131731062187524111987076276490273213064872715208032740011288776572222673965939582193254943541901639959791537623868122791014074427904646780302575624882901721817386847579766667694715471892709910368805936120563240871765056952672383187624243094791719438768991551887674408878972124073243475159970285411115306958720708007375418415135759865982738542230663239954179946125095105021343904691938494028803001253218941299642989625993865319594836981014968210634487932947896819005785660619691388106196118120198837859199527301497352622596053157161344126825224313890433758834930701760392673256510156529133363388297021606256535907381215349698794883093735422996868460251501046947500021759304115020622546599334864521290234315309991881640831910415956562407085768924988173636362734368386949195753818210135383127203694461107450760160205610192500055078599247397820311723735973275122660694724546589760525403619646439995359530003538965864295269894296406015743994811904387042660929868120110674789878470458378539525568221686108638384090358215229063324099137466426292652200429292820533529472737424135175993062651883353000880892447257596736137854347326811514837861749264708973939086289835301630303624928519810597586139309364217243669231499351714084975157870692791345183294353388115770968313159701750538824067500745532255635545850353020014201018669707884722820616744973737884528138765537900097573325956152308943876779702039273567693055543720970023414944626427075043965909829017393435909402006824559898532109306235914259328187558853168978843417587424506743260732089246761544467999643924297830878202598374361634818120068162606565396152666029156351584808275377767616053477331252274159641176595919693891468930983636623118570240987168753726875611831061750281651813804869174996687997242323680403625551783513598452515406053591765124450822742099999722659199972711693110479466718511802866168049403903856037745200423036666955496558186859371172188362296045927447057921160949523872144715956681845085179038618063307020061050355371412195154969361318445791622453222351182069964010901132543337133533429618121759804842112751442609325991915135422786681090834720662237137624222128710439540832176445398963603963463814052299488244541025344756330221779368097507744073573453962692238230176111653213123070250933742588129706039951061875171552426825379956716761524070562310508516425124561537716054132337923147101798793673815340484758515414826312467681943323368507583284930151204220543765630580077908676870226107124803350280077601420994368183643347293169186252052678906391916067796433743408961313737139676014247453937223500636071915713958758962900376539305901673796922827129801976253120547581902041295498693009077393525731396362545263751297930792453934947070814035558916161889152948515723120238343071957999371731224203165945284969803761161904066836510661567184083326465706897202233004031841502614784510949123830846257527315010868287590328424355138963058761584467388763239201108444210890334493099085684796779098097524474608120839408807741275490140924316036750300331710626704199677287260606876804127505643580219879802856599212010607536559310467578614408385442115946825672481706424934185219521900268470675953342107184454924567286392301653297512864973390192909307953756442739517355353244471776032071897444546059834239185445505017960923255488899303718830381482370896254855389389658392542331771091586798554690266173166828739598685745217768790565312841979548465962768198966178127756144284366501769032824317558567690217528121137555333686468411752072486190947859714635121781494020647926574662072070513681553963709553295766693756156930470715288106927173201226692560686277038743005065010977281410971036799087023608351125023736360388137656077132786123581765499895394936347832215462879991451192881902431708449562960335689729890600809245109008349807747688480940744595969732132497022324348862572963074773353241605911835951715846620733341626408660065202726870454888929440198670992835595907350933981972294758141962910284634152688515843009200900233211657661577130379005129766610884517749172545657688910615013535712532637329288582153354033250390466399459497908511409684010985537333652277953221172340563780940352526840014830775031372100602598102782849050549513310045447400940375334432160070241348569174873484991458164737707604970163090113142622165588446458485030042902348585140625057020439783471276734363086563272136740114593713619380344430917372578515352112779575115295345199359101826704082018962135691672166687718790287620058463142879196943051635583072305700555102674977721014992187458955275039133506890762574253128472574567366063471882522081996750817215812004559310282103343751580470922443648943388264231772664400386081838395882956770531551605818794440240784275852180068299318805894287169623966496026708371479787409978042702960476148453972439910399576748902527913680135409668328177190079448108932745294929172603705166181815114830013225748907523107384407418496891025155705299296647034034876936106482112249240318892669670646118884599495068366872212730911623485524037470607363148604768042630833745857978601435445683948072595429169799560295094072538259197690603376638947598368020860499838053927273286146170872839702296039949739810966167663413216767098710324600604338180359015628781595595213683197739008

set_option maxRecDepth 1000000 in
set_option maxHeartbeats 4000000 in
lemma mtInitChunk0 : Nat.iterate stepInit 156 (1, 19650218, 19650218) = (157, 1904872348, 1051003669168937840174092018795272339192746317798327910538030579399801258022378402307657604890572486852775857285124622565306229469260776735250744768334774378547984676541891960820741005776210163729257153279155160132186270149162573312697940328421944621607374017230685808946788454587221502386517096679481521625654717224151489684498781891872284256455989341576850643730785160575641935468317859204927784833184460563134107059960174492448450562587325437563547347293169197246913208234717150572359022942312821904916315049564249381722386598772738994010882960532804759919139800904908667785066353531132654122595419045121630754965607215070436655500932850880645534707573411815073262667503714797479298966519664171545567635306615606499758343153011267313653582553386573772061728289521127916505963812377183815836117231443900400247849829968283615750879142680025313425444079964737823555488732151417095555757066964831598664773063185187695316816558997940447734993177639957905006838154872402479852901594896665154078442783660704608531603781688863439184583369331305923099148832453756141847986450217933785599785643208794424023419441719230898053564296870778557932299807173037537444468606144877805261926131645700948130732196045503826146951047095393596550063088302836902182853193143055848953413930146119017544672174855264608456242207942705382900567485238598948042509331760038902716023073753205908703365463034583596949876102097099189184410142501438563703078093302332676597961066351236508338803630283138561837583895218831336258536081776945387178) := by decide

set_option maxRecDepth 1000000 in
set_option maxHeartbeats 4000000 in
lemma mtInitChunk1 : Nat.iterate stepInit 156 (157, 1904872348, 1051003669168937840174092018795272339192746317798327910538030579399801258022378402307657604890572486852775857285124622565306229469260776735250744768334774378547984676541891960820741005776210163729257153279155160132186270149162573312697940328421944621607374017230685808946788454587221502386517096679481521625654717224151489684498781891872284256455989341576850643730785160575641935468317859204927784833184460563134107059960174492448450562587325437563547347293169197246913208234717150572359022942312821904916315049564249381722386598772738994010882960532804759919139800904908667785066353531132654122595419045121630754965607215070436655500932850880645534707573411815073262667503714797479298966519664171545567635306615606499758343153011267313653582553386573772061728289521127916505963812377183815836117231443900400247849829968283615750879142680025313425444079964737823555488732151417095555757066964831598664773063185187695316816558997940447734993177639957905006838154872402479852901594896665154078442783660704608531603781688863439184583369331305923099148832453756141847986450217933785599785643208794424023419441719230898053564296870778557932299807173037537444468606144877805261926131645700948130732196045503826146951047095393596550063088302836902182853193143055848953413930146119017544672174855264608456242207942705382900567485238598948042509331760038902716023073753205908703365463034583596949876102097099189184410142501438563703078093302332676597961066351236508338803630283138561837583895218831336258536081776945387178) = (313, 142734034, 43451447770933355967655871035138949693569261124825171477259371368242040963630315041640600927062429357342263245072047913504023898976222663001529237181465201772843534221011158941461788237762698589261273801769281502502593118350248735333713311198202497828243017791061617341960439265842889406544782867384102031255415178900271700980034168162099017956864365589687933957192069187376259297852575715811388574171215432492658087185762998133264937618221271755098965785706070432997411298302669325798217537933293030347163471750845422681163572671323163202114877642119962417042471289236322169711500740026105874938956762201603260389777781630279713951086029849345573805932629935728933211559110808097128740387659360937505283811305307347869883257125318992063172672017615398536223451585974537588286022205134009526045686872405388374260265035160946462461317145380067221477742827625033291004988186600847047377754436956112252765415547548408556447351514012263030872155378162443767249075800305742610089963329250678542759130875153917902877000807677462921581614667852151540757676825924685240218932446899250696312449506135479343622804623859202371994529890468382846930685411934794688331648287209458802119989744293689297836832290230577568486221523698209302874511121874762150532638410906132104470889309461291278796138128439899576644934370820510807927041579775331321262853219456273416624914629492046704521098886302371997733497169681590999013636545589526730424048338678309150088059101227216260252295312930593924952910598006343530852486415054899957422866806481309347647590361328438947697292746295807809428922793414666431031814032861628969263850718323415981880030858167528846350251046504303358726259363323070269072187751201049724611599535900338130652159317711611833200261613695454102202814578620205541009402153224278689166045349627866295907532129503895413832810001764573153936452102111555030652334240483122102594841884380674317392563630683854541905006240664521198153740937166191474997625752436218240484367957684741526689649510263592542862349097987484326349923217637403156985861455776990955562277159694815042715216724617281559276212445232985599228436390356449552586460255915535860776483174844518320695425225063695481080178103231631950275973599455300666837807626044694234147242514012101510230019527491077792176108322681805294472844587867838741311282738328647507874489747241806324255865685263010191263492795301111565976750841965370576184466410593308712339528181219905472475204122126760987352893962695606471420148579799216517439021817837338880498212480863841635080417758859006076745928135992556866011781792223422737565911596816399712199640792654318509917637608884290031624551158142734411201386157483991292013621678138939288482992546376894032653839238558962841745275990259484118213751656221934669102001560497906162914383442900645772006269349662366806111990602419656871248887642639965754962717384557626116538075248782173671677328111889848696227829607958952219328265125408926725048538271658360205449107884774215457740765053921576049468809462583970011502335658) := by decide

set_option maxRecDepth 1000000 in
set_option maxHeartbeats 4000000 in
lemma mtInitChunk2 : Nat.iterate stepInit 156 (313, 142734034, 43451447770933355967655871035138949693569261124825171477259371368242040963630315041640600927062429357342263245072047913504023898976222663001529237181465201772843534221011158941461788237762698589261273801769281502502593118350248735333713311198202497828243017791061617341960439265842889406544782867384102031255415178900271700980034168162099017956864365589687933957192069187376259297852575715811388574171215432492658087185762998133264937618221271755098965785706070432997411298302669325798217537933293030347163471750845422681163572671323163202114877642119962417042471289236322169711500740026105874938956762201603260389777781630279713951086029849345573805932629935728933211559110808097128740387659360937505283811305307347869883257125318992063172672017615398536223451585974537588286022205134009526045686872405388374260265035160946462461317145380067221477742827625033291004988186600847047377754436956112252765415547548408556447351514012263030872155378162443767249075800305742610089963329250678542759130875153917902877000807677462921581614667852151540757676825924685240218932446899250696312449506135479343622804623859202371994529890468382846930685411934794688331648287209458802119989744293689297836832290230577568486221523698209302874511121874762150532638410906132104470889309461291278796138128439899576644934370820510807927041579775331321262853219456273416624914629492046704521098886302371997733497169681590999013636545589526730424048338678309150088059101227216260252295312930593924952910598006343530852486415054899957422866806481309347647590361328438947697292746295807809428922793414666431031814032861628969263850718323415981880030858167528846350251046504303358726259363323070269072187751201049724611599535900338130652159317711611833200261613695454102202814578620205541009402153224278689166045349627866295907532129503895413832810001764573153936452102111555030652334240483122102594841884380674317392563630683854541905006240664521198153740937166191474997625752436218240484367957684741526689649510263592542862349097987484326349923217637403156985861455776990955562277159694815042715216724617281559276212445232985599228436390356449552586460255915535860776483174844518320695425225063695481080178103231631950275973599455300666837807626044694234147242514012101510230019527491077792176108322681805294472844587867838741311282738328647507874489747241806324255865685263010191263492795301111565976750841965370576184466410593308712339528181219905472475204122126760987352893962695606471420148579799216517439021817837338880498212480863841635080417758859006076745928135992556866011781792223422737565911596816399712199640792654318509917637608884290031624551158142734411201386157483991292013621678138939288482992546376894032653839238558962841745275990259484118213751656221934669102001560497906162914383442900645772006269349662366806111990602419656871248887642639965754962717384557626116538075248782173671677328111889848696227829607958952219328265125408926725048538271658360205449107884774215457740765053921576049468809462583970011502335658) = (469, 1238578150, 208035992059834220210739403860728342738800931043459486417504744921804576107301366385882394524307886925326709696410060582571046786712134496918680416680943980311066992226858813038158927200790845598215711110835894507175269770154890531204982837147618802169414808789689761340145628204325618684484621084722441958161688016912421324099288963862239707572182297748227280386198437174447562714349206330194231572762662762674053155475771665202461967933320018913447100034822422979762921114852233133745576130783196381780778154639938751526666234888584530838691192559067459885896673777031593894819048214030450001105630867808582019623280500818645748904258121605299616105273501469975390354896905351370065909776688882633566671587816910500850860633757388199674372573806022960141881055611948866582181676984992901211490256893552544053009758012815604042798812545932751839558253589243749120015197466527216261562425157060089434385830128221712921455503857981414724425113344425234417175596485899270224729087117754854529668640368446340138470234658099993888506482262882918737993134441175774420907183556006556526463607863094934465644577286327377037704901665089009686910392150759300282925219129503035871976228333770430160588331838335667898481327016830105004452391732752044350994760100926516599261747797281390254840875472538528767606952072030869182689372165871386955618806855235067576949371522032198239108243482701233143359722471448202830282418889507694547069068049773197101950269643427660226477930460568533378109402451791210314724223548313851322707445405534124002909836618286620068740688720762227438159581287608606979007047077319245053726311049863900624117476065832089243771857636626832662494462208127245772121616809155442789567803345765946573885776623664069176100079692189634384236874498656719501747099713977009082214178194971705202420499535057551529394526454211574038125338004498187581943207229472091046419387864450729573875311718378934041315910934674693377240215679983586441793675962165813957731444833946627423718897696178983896216097543480408996341236873686029800250376612942682082158541930206598690252769895348947245827935850549430483346058307848014055692746471339373928433310095514834074296951595754717943542698667398718909644596069252143036430309600858872971617811192664078310864514962828331614094999169920786326614212035776789143458809930508663990371339694271149807886149359711693811784257060711344307409870510493207320521197570493643070670858958055885207907195058910103345731933634800397703514352099817952273312921226080321446945314419529193267302596223066209665065443756642755255078392428758584543857761744476524374920968789096166138902962523083570649994679160976276586424438966943496969322277009454395600483862901564019202531392208093592700957074894522718485026768972550288661890842330424655167038151136012365036361483884514973446614021225448108623147155536215936181888046720453080012952087502092581354243002756331248243040618643785481021927273593332067938825043845604510396868901271281261990701233673381817195650457226690768655258116235663135494321079565151842548931440635388741939242526841972619747224493176243784629238255643119828729300652833451551107903937626346504260079736025996650121886304670342126140670814226971462008306821365184095047305248139834716961531905103022374809384807709539099990535679449363786203451346610419001592763364774384532905686160063821305162526801503935329890150221827120645857326418273027547465798232820534796485028692780345062515746159349045967689025544483589338489820734001859227622232745625708868862026593365493687220286709000573878933116152364531507635011829597319025322595421926559683282460316381945822613402947706812081580193965451605528010892672034869851760051379743483979344756547080682038408844290985335050352181949538449104613619606909510514664006024761547293430236429292852441708059399753500064257268629100166032086594139288096645995169302619349574327908753470249278155073089415324864136382563924908537983625256578397064874182882653799912165995469775796373822152617660669376848382903215502783482985764983475510232371871688353833066436151976891627380613272569881653227217696717075420346785687782629660043321847657674392464730753031162675313033245868503571273896513624174400867503818783040443045808586748316034617559153521274495271341416825989360978789221707637391395475082863475846321885345250031796204469497583492780024578728138648559916876191786179386168238276917298840244955770349716983631505438758557336510397735133651956910061719206852673297701165467794484156922122992283426321124181519735969450) := by decide

set_option maxRecDepth 1000000 in
set_option maxHeartbeats 4000000 in
lemma mtInitChunk3 : Nat.iterate stepInit 155 (469, 1238578150, 208035992059834220210739403860728342738800931043459486417504744921804576107301366385882394524307886925326709696410060582571046786712134496918680416680943980311066992226858813038158927200790845598215711110835894507175269770154890531204982837147618802169414808789689761340145628204325618684484621084722441958161688016912421324099288963862239707572182297748227280386198437174447562714349206330194231572762662762674053155475771665202461967933320018913447100034822422979762921114852233133745576130783196381780778154639938751526666234888584530838691192559067459885896673777031593894819048214030450001105630867808582019623280500818645748904258121605299616105273501469975390354896905351370065909776688882633566671587816910500850860633757388199674372573806022960141881055611948866582181676984992901211490256893552544053009758012815604042798812545932751839558253589243749120015197466527216261562425157060089434385830128221712921455503857981414724425113344425234417175596485899270224729087117754854529668640368446340138470234658099993888506482262882918737993134441175774420907183556006556526463607863094934465644577286327377037704901665089009686910392150759300282925219129503035871976228333770430160588331838335667898481327016830105004452391732752044350994760100926516599261747797281390254840875472538528767606952072030869182689372165871386955618806855235067576949371522032198239108243482701233143359722471448202830282418889507694547069068049773197101950269643427660226477930460568533378109402451791210314724223548313851322707445405534124002909836618286620068740688720762227438159581287608606979007047077319245053726311049863900624117476065832089243771857636626832662494462208127245772121616809155442789567803345765946573885776623664069176100079692189634384236874498656719501747099713977009082214178194971705202420499535057551529394526454211574038125338004498187581943207229472091046419387864450729573875311718378934041315910934674693377240215679983586441793675962165813957731444833946627423718897696178983896216097543480408996341236873686029800250376612942682082158541930206598690252769895348947245827935850549430483346058307848014055692746471339373928433310095514834074296951595754717943542698667398718909644596069252143036430309600858872971617811192664078310864514962828331614094999169920786326614212035776789143458809930508663990371339694271149807886149359711693811784257060711344307409870510493207320521197570493643070670858958055885207907195058910103345731933634800397703514352099817952273312921226080321446945314419529193267302596223066209665065443756642755255078392428758584543857761744476524374920968789096166138902962523083570649994679160976276586424438966943496969322277009454395600483862901564019202531392208093592700957074894522718485026768972550288661890842330424655167038151136012365036361483884514973446614021225448108623147155536215936181888046720453080012952087502092581354243002756331248243040618643785481021927273593332067938825043845604510396868901271281261990701233673381817195650457226690768655258116235663135494321079565151842548931440635388741939242526841972619747224493176243784629238255643119828729300652833451551107903937626346504260079736025996650121886304670342126140670814226971462008306821365184095047305248139834716961531905103022374809384807709539099990535679449363786203451346610419001592763364774384532905686160063821305162526801503935329890150221827120645857326418273027547465798232820534796485028692780345062515746159349045967689025544483589338489820734001859227622232745625708868862026593365493687220286709000573878933116152364531507635011829597319025322595421926559683282460316381945822613402947706812081580193965451605528010892672034869851760051379743483979344756547080682038408844290985335050352181949538449104613619606909510514664006024761547293430236429292852441708059399753500064257268629100166032086594139288096645995169302619349574327908753470249278155073089415324864136382563924908537983625256578397064874182882653799912165995469775796373822152617660669376848382903215502783482985764983475510232371871688353833066436151976891627380613272569881653227217696717075420346785687782629660043321847657674392464730753031162675313033245868503571273896513624174400867503818783040443045808586748316034617559153521274495271341416825989360978789221707637391395475082863475846321885345250031796204469497583492780024578728138648559916876191786179386168238276917298840244955770349716983631505438758557336510397735133651956910061719206852673297701165467794484156922122992283426321124181519735969450) = (624, 2905164258, 62685089405509111925910797243914719854890513935494713084094713797279779630627496305943786046941309007281293105221577504421353501605599255248785149356818580886163074212016138319710181437623915839386196989339984175865611290932895638485827512283879634622589907034847096838980553398268338905605705315464924834076955485269257682765843392777664062904318116756644819538761883164862381873685805923051342196114892111881287659915424456096361326051748180740843339721465950121631833352165428366344241754810081140762710579390137795215443629123183303201044796731629341661542390258966032612552126580439913324626563213547393121217728067632048719897064596438939163041106934301355643192260261867872030533878188557727018817797219012064641958276099544136480610826250078810896212505254064619595899307426216931651016613164877613570296351724055264357110051005104450572173606849938075379012356137114572525910752676385589168436483206759652170097284388598518122222819376116616668668677988651997615236221431416155794821321118852088948452164682783715959922435191327367306488124638818446090532334864386359317233873012285172875896330714873881780586230596002778688422250420590175698633544778262136505069053046737202152515000629854634631225453245996997340762744567896897683212149150732909707719966588817675821630380251456266588599804209831660991462715440400663143017564651072677052296295930367391822676512661642282350234567553218318066651318510488484545671729568971887621684270732981974442582657502555066960418690332945218280990034155505553171409775830458482159957769211244505225186771766058316021949327301666418107251589707938065072144733816368743637495699897181007119363672460040974223449086641663004605507793014252452324150238463715514559124307431648478948480649031081489229583165223570218974125422263886587593014744330199975749832650568652404661542746543584685860761547297457070273167102314576665676644281998277713093924236551494770138725647883566971887853912300960949802636372591951717316415323846182747445131420005722224687602711525724505110953736568981699982016588947035894059736087136235396798804019434387781559696138411966704777989194870090051835909943079457649936020314680876367897457337488804889342331824364904005266943816631681518612047693872607083945336048154993001716858914072302230374294986610531277637599664647525761147514008899238689946802093944865612982597431648203028809043429562401771290925843222821220221381984318518256971016750121270624021542153515130386081256853244444367484914891752438843250797295149886721543902585582757118492217204960123203770309672216674331373413106027454841661967870247822106376003696537006476355273043676224973894002060133928765135363584693312631060562155459381152426642778209514491263275588735458188352331628933634618912177576995916817414488324819680108333628484452298807271017999262374749573133359090629722111402666396222385680310709557844049479865847370371052888681758484468279513921172987571336140289500145715018352119752770038578015899178947425013401300127437407370742417936980607757405410607208376626705322894782663757703548808362869195819947150150865798288136994832911439410269353230208345410503242199606186650417333579047848825834242257112060317620885151293421378661990197161958015730358249113963865616811805417654957899792836277351433146683316643158745577273742588847277405020330699298979666450169324546781433015633218213248018986767013905101885085728066131985273947793365444250280947765884488609302913437528001802423347517836456663978922564542901160075954132077499502061844004777463229898312792357201472450520034421742281215395838957029567457078867297742321364249618062920323524100796395855490398720473188748064226082130624085325443879193454095100721902723688608983702297802922465778395428510531587340343771240068168890882622394112252370643121994567113348850616779414952571984309063927162547038575769391208822294299053225776973195785292510157058775147687493667385905281728614066936870793483631104130486096422866739022254251631022238998824784309871214211336594149372534724828516536519652291847191320934127662041939033266344757810255450761243406685982638804631309022215852991706323223872506356963395668107287976200691035733250165615782065576159415303394415966535152327550107294310945533761757937224536792146711105700674959937207778503501562879445241463662142281185819506210181780721218897488871995890898495582077564387715740371190275817001449471008660140255770382875594805433223352833476546594040372715841292252983175468170554585838014797017976570586587751089146553833551413146641975370517778330202052282190648141351908509904289169596729111939424597802445523234111653813513351586367960175769546506050051493655326103823629699245586418016468660736051425039803522537493270385743437525903109563398688573456345292160567787373069854610200635728800730405759403691875432721043746233636765094325962472698626875833148826372580999341547042531665331710768365982359935219565301595187067772247975847412037958098451506998773182171027695752045356894447709388159633645629545493246019135820915900506906032640701290570506299065346661219735445730896769091171352761432210047450382980030625592142825700677633624952217795344145832513082782540989616413040988227257601039794195623143595351637462190706636535912449334420058581521218743569834717812580171279915160794789675762903718339466089866492140118823551337811927493524761760551434001520245324751568861558716803095718510972066599595072196209156923318071322517301806566620458899402166430591631348363311478802800521980525250372511467674969151489645720009661369785217086930227581405674315978920044798755483144811069077253851302610194739624245401270682864202663540116818822475326676741780611737275972111438408802370422377608919256570335384654037352344114105999356653180812503717835632673409647782213628400383443178293619326757139369589058612122088577237252104060778375287897543799460272211546791798613974575310224299012205778134871255296492395729078221387894808011355820153110205338707003138385845672884757408327786763143168159295742358655797897448897721796416755370) := by decide

set_option maxRecDepth 1000000 in
set_option maxHeartbeats 4000000 in
lemma mtInitLemma : initGenrand 19650218 = 62685089405509111925910797243914719854890513935494713084094713797279779630627496305943786046941309007281293105221577504421353501605599255248785149356818580886163074212016138319710181437623915839386196989339984175865611290932895638485827512283879634622589907034847096838980553398268338905605705315464924834076955485269257682765843392777664062904318116756644819538761883164862381873685805923051342196114892111881287659915424456096361326051748180740843339721465950121631833352165428366344241754810081140762710579390137795215443629123183303201044796731629341661542390258966032612552126580439913324626563213547393121217728067632048719897064596438939163041106934301355643192260261867872030533878188557727018817797219012064641958276099544136480610826250078810896212505254064619595899307426216931651016613164877613570296351724055264357110051005104450572173606849938075379012356137114572525910752676385589168436483206759652170097284388598518122222819376116616668668677988651997615236221431416155794821321118852088948452164682783715959922435191327367306488124638818446090532334864386359317233873012285172875896330714873881780586230596002778688422250420590175698633544778262136505069053046737202152515000629854634631225453245996997340762744567896897683212149150732909707719966588817675821630380251456266588599804209831660991462715440400663143017564651072677052296295930367391822676512661642282350234567553218318066651318510488484545671729568971887621684270732981974442582657502555066960418690332945218280990034155505553171409775830458482159957769211244505225186771766058316021949327301666418107251589707938065072144733816368743637495699897181007119363672460040974223449086641663004605507793014252452324150238463715514559124307431648478948480649031081489229583165223570218974125422263886587593014744330199975749832650568652404661542746543584685860761547297457070273167102314576665676644281998277713093924236551494770138725647883566971887853912300960949802636372591951717316415323846182747445131420005722224687602711525724505110953736568981699982016588947035894059736087136235396798804019434387781559696138411966704777989194870090051835909943079457649936020314680876367897457337488804889342331824364904005266943816631681518612047693872607083945336048154993001716858914072302230374294986610531277637599664647525761147514008899238689946802093944865612982597431648203028809043429562401771290925843222821220221381984318518256971016750121270624021542153515130386081256853244444367484914891752438843250797295149886721543902585582757118492217204960123203770309672216674331373413106027454841661967870247822106376003696537006476355273043676224973894002060133928765135363584693312631060562155459381152426642778209514491263275588735458188352331628933634618912177576995916817414488324819680108333628484452298807271017999262374749573133359090629722111402666396222385680310709557844049479865847370371052888681758484468279513921172987571336140289500145715018352119752770038578015899178947425013401300127437407370742417936980607757405410607208376626705322894782663757703548808362869195819947150150865798288136994832911439410269353230208345410503242199606186650417333579047848825834242257112060317620885151293421378661990197161958015730358249113963865616811805417654957899792836277351433146683316643158745577273742588847277405020330699298979666450169324546781433015633218213248018986767013905101885085728066131985273947793365444250280947765884488609302913437528001802423347517836456663978922564542901160075954132077499502061844004777463229898312792357201472450520034421742281215395838957029567457078867297742321364249618062920323524100796395855490398720473188748064226082130624085325443879193454095100721902723688608983702297802922465778395428510531587340343771240068168890882622394112252370643121994567113348850616779414952571984309063927162547038575769391208822294299053225776973195785292510157058775147687493667385905281728614066936870793483631104130486096422866739022254251631022238998824784309871214211336594149372534724828516536519652291847191320934127662041939033266344757810255450761243406685982638804631309022215852991706323223872506356963395668107287976200691035733250165615782065576159415303394415966535152327550107294310945533761757937224536792146711105700674959937207778503501562879445241463662142281185819506210181780721218897488871995890898495582077564387715740371190275817001449471008660140255770382875594805433223352833476546594040372715841292252983175468170554585838014797017976570586587751089146553833551413146641975370517778330202052282190648141351908509904289169596729111939424597802445523234111653813513351586367960175769546506050051493655326103823629699245586418016468660736051425039803522537493270385743437525903109563398688573456345292160567787373069854610200635728800730405759403691875432721043746233636765094325962472698626875833148826372580999341547042531665331710768365982359935219565301595187067772247975847412037958098451506998773182171027695752045356894447709388159633645629545493246019135820915900506906032640701290570506299065346661219735445730896769091171352761432210047450382980030625592142825700677633624952217795344145832513082782540989616413040988227257601039794195623143595351637462190706636535912449334420058581521218743569834717812580171279915160794789675762903718339466089866492140118823551337811927493524761760551434001520245324751568861558716803095718510972066599595072196209156923318071322517301806566620458899402166430591631348363311478802800521980525250372511467674969151489645720009661369785217086930227581405674315978920044798755483144811069077253851302610194739624245401270682864202663540116818822475326676741780611737275972111438408802370422377608919256570335384654037352344114105999356653180812503717835632673409647782213628400383443178293619326757139369589058612122088577237252104060778375287897543799460272211546791798613974575310224299012205778134871255296492395729078221387894808011355820153110205338707003138385845672884757408327786763143168159295742358655797897448897721796416755370 := by
  rw [initGenrand, show (623:Nat) = 155+(156+(156+156)) from rfl, Function.iterate_add_apply,
    Function.iterate_add_apply, Function.iterate_add_apply,
    show U32 19650218 = 19650218 from rfl, mtInitChunk0, mtInitChunk1, mtInitChunk2, mtInitChunk3]

set_option maxRecDepth 1000000 in
set_option maxHeartbeats 4000000 in
lemma mtMix1Chunk0 : Nat.iterate (stepIba1 [20240307]) 156 (1, 0, 62685089405509111925910797243914719854890513935494713084094713797279779630627496305943786046941309007281293105221577504421353501605599255248785149356818580886163074212016138319710181437623915839386196989339984175865611290932895638485827512283879634622589907034847096838980553398268338905605705315464924834076955485269257682765843392777664062904318116756644819538761883164862381873685805923051342196114892111881287659915424456096361326051748180740843339721465950121631833352165428366344241754810081140762710579390137795215443629123183303201044796731629341661542390258966032612552126580439913324626563213547393121217728067632048719897064596438939163041106934301355643192260261867872030533878188557727018817797219012064641958276099544136480610826250078810896212505254064619595899307426216931651016613164877613570296351724055264357110051005104450572173606849938075379012356137114572525910752676385589168436483206759652170097284388598518122222819376116616668668677988651997615236221431416155794821321118852088948452164682783715959922435191327367306488124638818446090532334864386359317233873012285172875896330714873881780586230596002778688422250420590175698633544778262136505069053046737202152515000629854634631225453245996997340762744567896897683212149150732909707719966588817675821630380251456266588599804209831660991462715440400663143017564651072677052296295930367391822676512661642282350234567553218318066651318510488484545671729568971887621684270732981974442582657502555066960418690332945218280990034155505553171409775830458482159957769211244505225186771766058316021949327301666418107251589707938065072144733816368743637495699897181007119363672460040974223449086641663004605507793014252452324150238463715514559124307431648478948480649031081489229583165223570218974125422263886587593014744330199975749832650568652404661542746543584685860761547297457070273167102314576665676644281998277713093924236551494770138725647883566971887853912300960949802636372591951717316415323846182747445131420005722224687602711525724505110953736568981699982016588947035894059736087136235396798804019434387781559696138411966704777989194870090051835909943079457649936020314680876367897457337488804889342331824364904005266943816631681518612047693872607083945336048154993001716858914072302230374294986610531277637599664647525761147514008899238689946802093944865612982597431648203028809043429562401771290925843222821220221381984318518256971016750121270624021542153515130386081256853244444367484914891752438843250797295149886721543902585582757118492217204960123203770309672216674331373413106027454841661967870247822106376003696537006476355273043676224973894002060133928765135363584693312631060562155459381152426642778209514491263275588735458188352331628933634618912177576995916817414488324819680108333628484452298807271017999262374749573133359090629722111402666396222385680310709557844049479865847370371052888681758484468279513921172987571336140289500145715018352119752770038578015899178947425013401300127437407370742417936980607757405410607208376626705322894782663757703548808362869195819947150150865798288136994832911439410269353230208345410503242199606186650417333579047848825834242257112060317620885151293421378661990197161958015730358249113963865616811805417654957899792836277351433146683316643158745577273742588847277405020330699298979666450169324546781433015633218213248018986767013905101885085728066131985273947793365444250280947765884488609302913437528001802423347517836456663978922564542901160075954132077499502061844004777463229898312792357201472450520034421742281215395838957029567457078867297742321364249618062920323524100796395855490398720473188748064226082130624085325443879193454095100721902723688608983702297802922465778395428510531587340343771240068168890882622394112252370643121994567113348850616779414952571984309063927162547038575769391208822294299053225776973195785292510157058775147687493667385905281728614066936870793483631104130486096422866739022254251631022238998824784309871214211336594149372534724828516536519652291847191320934127662041939033266344757810255450761243406685982638804631309022215852991706323223872506356963395668107287976200691035733250165615782065576159415303394415966535152327550107294310945533761757937224536792146711105700674959937207778503501562879445241463662142281185819506210181780721218897488871995890898495582077564387715740371190275817001449471008660140255770382875594805433223352833476546594040372715841292252983175468170554585838014797017976570586587751089146553833551413146641975370517778330202052282190648141351908509904289169596729111939424597802445523234111653813513351586367960175769546506050051493655326103823629699245586418016468660736051425039803522537493270385743437525903109563398688573456345292160567787373069854610200635728800730405759403691875432721043746233636765094325962472698626875833148826372580999341547042531665331710768365982359935219565301595187067772247975847412037958098451506998773182171027695752045356894447709388159633645629545493246019135820915900506906032640701290570506299065346661219735445730896769091171352761432210047450382980030625592142825700677633624952217795344145832513082782540989616413040988227257601039794195623143595351637462190706636535912449334420058581521218743569834717812580171279915160794789675762903718339466089866492140118823551337811927493524761760551434001520245324751568861558716803095718510972066599595072196209156923318071322517301806566620458899402166430591631348363311478802800521980525250372511467674969151489645720009661369785217086930227581405674315978920044798755483144811069077253851302610194739624245401270682864202663540116818822475326676741780611737275972111438408802370422377608919256570335384654037352344114105999356653180812503717835632673409647782213628400383443178293619326757139369589058612122088577237252104060778375287897543799460272211546791798613974575310224299012205778134871255296492395729078221387894808011355820153110205338707003138385845672884757408327786763143168159295742358655797897448897721796416755370) = (157, 0, 62685089405509111925910797243914719854890513935494713084094713797279779630627496305943786046941309007281293105221577504421353501605599255248785149356818580886163074212016138319710181437623915839386196989339984175865611290932895638485827512283879634622589907034847096838980553398268338905605705315464924834076955485269257682765843392777664062904318116756644819538761883164862381873685805923051342196114892111881287659915424456096361326051748180740843339721465950121631833352165428366344241754810081140762710579390137795215443629123183303201044796731629341661542390258966032612552126580439913324626563213547393121217728067632048719897064596438939163041106934301355643192260261867872030533878188557727018817797219012064641958276099544136480610826250078810896212505254064619595899307426216931651016613164877613570296351724055264357110051005104450572173606849938075379012356137114572525910752676385589168436483206759652170097284388598518122222819376116616668668677988651997615236221431416155794821321118852088948452164682783715959922435191327367306488124638818446090532334864386359317233873012285172875896330714873881780586230596002778688422250420590175698633544778262136505069053046737202152515000629854634631225453245996997340762744567896897683212149150732909707719966588817675821630380251456266588599804209831660991462715440400663143017564651072677052296295930367391822676512661642282350234567553218318066651318510488484545671729568971887621684270732981974442582657502555066960418690332945218280990034155505553171409775830458482159957769211244505225186771766058316021949327301666418107251589707938065072144733816368743637495699897181007119363672460040974223449086641663004605507793014252452324150238463715514559124307431648478948480649031081489229583165223570218974125422263886587593014744330199975749832650568652404661542746543584685860761547297457070273167102314576665676644281998277713093924236551494770138725647883566971887853912300960949802636372591951717316415323846182747445131420005722224687602711525724505110953736568981699982016588947035894059736087136235396798804019434387781559696138411966704777989194870090051835909943079457649936020314680876367897457337488804889342331824364904005266943816631681518612047693872607083945336048154993001716858914072302230374294986610531277637599664647525761147514008899238689946802093944865612982597431648203028809043429562401771290925843222821220221381984318518256971016750121270624021542153515130386081256853244444367484914891752438843250797295149886721543902585582757118492217204960123203770309672216674331373413106027454841661967870247822106376003696537006476355273043676224973894002060133928765135363584693312631060562155459381152426642778209514491263275588735458188352331628933634618912177576995916817414488324819680108333628484452298807271017999262374749573133359090629722111402666396222385680310709557844049479865847370371052888681758484468279513921172987571336140289500145715018352119752770038578015899178947425013401300127437407370742417936980607757405410607208376626705322894782663757703548808362869195819947150150865798288136994832911439410269353230208345410503242199606186650417333579047848825834242257112060317620885151293421378661990197161958015730358249113963865616811805417654957899792836277351433146683316643158745577273742588847277405020330699298979666450169324546781433015633218213248018986767013905101885085728066131985273947793365444250280947765884488609302913437528001802423347517836456663978922564542901160075954132077499502061844004777463229898312792357201472450520034421742281215395838957029567457078867297742321364249618062920323524100796395855490398720473188748064226082130624085325443879193454095100721902723688608983702297802922465778395428510531587340343771240068168890882622394112252370643121994567113348850616779414952571984309063927162547038575769391208822294299053225776973195785292510157058775147687493667385905281728614066936870793483631104130486096422866739022254251631022238998824784309871214211336594149372534724828516536519652291847191320934127662041939033266344757810255450761243406685982638804631309022215852991706323223872506356963395668107287976200691035733250165615782065576159415303394415966535152327550107294310945533761757937224536792146711105700674959937207778503501562879445241463662142281185819506210181780721218897488871995890898495582077564387715740371190275817001449471008660140255770382875594805433223352833476546594040372715841292252983175468170554585838014797017976570586587751089146553833551413147178242135979444931560319907800416318161272370339126358069583008731659156221781193881864708414198154113101537720824740676698432578458553039398151306090033874371094274268766993254564728195377477287026453103075576165394832969863120261465224004438540495464693361251880749331571655206195767547396414461176050670022127312913974436494361885163795285883604992967765432922659817230642720410568564545212183091427211228229293096151984997551325378437564741719924625009951166730472575130194895476671897127686106072311191048708770071164004033990594805804987591542884585516219091239508951157857227490793470593043434357338271929135027338509473121005655361773898803677005409330675500436429852619167161968629224291364084516190644688090374088236890004771524459305421371031660606993947518479408499524992125448308992398700813396989426133457400797155490565460045160413223287371951558506149383070437052513414963399579776783716126755100794298636166475212334689357692375124507344552447954760386872759087594266981121205807180705753681757476737099938921305645180983680175221365905716546070737292699808174156540486467036524759483823002347345201728320224619089186993543086017824381977368852098301231860334515298771891155428954935932908966189588243733488455251193064828392839142396159373524137918033117072191863278749773017244345412512403103650643843398733021245107771251328659551212837430609441444974914642461640153374304277633616220396457718126983330019305412754695610883328230350218748297626291264550842767967953822253817899091898405738154) := by decide

set_option maxRecDepth 1000000 in
set_option maxHeartbeats 4000000 in
lemma mtMix1Chunk1 : Nat.iterate (stepIba1 [20240307]) 156 (157, 0, 62685089405509111925910797243914719854890513935494713084094713797279779630627496305943786046941309007281293105221577504421353501605599255248785149356818580886163074212016138319710181437623915839386196989339984175865611290932895638485827512283879634622589907034847096838980553398268338905605705315464924834076955485269257682765843392777664062904318116756644819538761883164862381873685805923051342196114892111881287659915424456096361326051748180740843339721465950121631833352165428366344241754810081140762710579390137795215443629123183303201044796731629341661542390258966032612552126580439913324626563213547393121217728067632048719897064596438939163041106934301355643192260261867872030533878188557727018817797219012064641958276099544136480610826250078810896212505254064619595899307426216931651016613164877613570296351724055264357110051005104450572173606849938075379012356137114572525910752676385589168436483206759652170097284388598518122222819376116616668668677988651997615236221431416155794821321118852088948452164682783715959922435191327367306488124638818446090532334864386359317233873012285172875896330714873881780586230596002778688422250420590175698633544778262136505069053046737202152515000629854634631225453245996997340762744567896897683212149150732909707719966588817675821630380251456266588599804209831660991462715440400663143017564651072677052296295930367391822676512661642282350234567553218318066651318510488484545671729568971887621684270732981974442582657502555066960418690332945218280990034155505553171409775830458482159957769211244505225186771766058316021949327301666418107251589707938065072144733816368743637495699897181007119363672460040974223449086641663004605507793014252452324150238463715514559124307431648478948480649031081489229583165223570218974125422263886587593014744330199975749832650568652404661542746543584685860761547297457070273167102314576665676644281998277713093924236551494770138725647883566971887853912300960949802636372591951717316415323846182747445131420005722224687602711525724505110953736568981699982016588947035894059736087136235396798804019434387781559696138411966704777989194870090051835909943079457649936020314680876367897457337488804889342331824364904005266943816631681518612047693872607083945336048154993001716858914072302230374294986610531277637599664647525761147514008899238689946802093944865612982597431648203028809043429562401771290925843222821220221381984318518256971016750121270624021542153515130386081256853244444367484914891752438843250797295149886721543902585582757118492217204960123203770309672216674331373413106027454841661967870247822106376003696537006476355273043676224973894002060133928765135363584693312631060562155459381152426642778209514491263275588735458188352331628933634618912177576995916817414488324819680108333628484452298807271017999262374749573133359090629722111402666396222385680310709557844049479865847370371052888681758484468279513921172987571336140289500145715018352119752770038578015899178947425013401300127437407370742417936980607757405410607208376626705322894782663757703548808362869195819947150150865798288136994832911439410269353230208345410503242199606186650417333579047848825834242257112060317620885151293421378661990197161958015730358249113963865616811805417654957899792836277351433146683316643158745577273742588847277405020330699298979666450169324546781433015633218213248018986767013905101885085728066131985273947793365444250280947765884488609302913437528001802423347517836456663978922564542901160075954132077499502061844004777463229898312792357201472450520034421742281215395838957029567457078867297742321364249618062920323524100796395855490398720473188748064226082130624085325443879193454095100721902723688608983702297802922465778395428510531587340343771240068168890882622394112252370643121994567113348850616779414952571984309063927162547038575769391208822294299053225776973195785292510157058775147687493667385905281728614066936870793483631104130486096422866739022254251631022238998824784309871214211336594149372534724828516536519652291847191320934127662041939033266344757810255450761243406685982638804631309022215852991706323223872506356963395668107287976200691035733250165615782065576159415303394415966535152327550107294310945533761757937224536792146711105700674959937207778503501562879445241463662142281185819506210181780721218897488871995890898495582077564387715740371190275817001449471008660140255770382875594805433223352833476546594040372715841292252983175468170554585838014797017976570586587751089146553833551413147178242135979444931560319907800416318161272370339126358069583008731659156221781193881864708414198154113101537720824740676698432578458553039398151306090033874371094274268766993254564728195377477287026453103075576165394832969863120261465224004438540495464693361251880749331571655206195767547396414461176050670022127312913974436494361885163795285883604992967765432922659817230642720410568564545212183091427211228229293096151984997551325378437564741719924625009951166730472575130194895476671897127686106072311191048708770071164004033990594805804987591542884585516219091239508951157857227490793470593043434357338271929135027338509473121005655361773898803677005409330675500436429852619167161968629224291364084516190644688090374088236890004771524459305421371031660606993947518479408499524992125448308992398700813396989426133457400797155490565460045160413223287371951558506149383070437052513414963399579776783716126755100794298636166475212334689357692375124507344552447954760386872759087594266981121205807180705753681757476737099938921305645180983680175221365905716546070737292699808174156540486467036524759483823002347345201728320224619089186993543086017824381977368852098301231860334515298771891155428954935932908966189588243733488455251193064828392839142396159373524137918033117072191863278749773017244345412512403103650643843398733021245107771251328659551212837430609441444974914642461640153374304277633616220396457718126983330019305412754695610883328230350218748297626291264550842767967953822253817899091898405738154) = (313, 0, 62685089405509111925910797243914719854890513935494713084094713797279779630627496305943786046941309007281293105221577504421353501605599255248785149356818580886163074212016138319710181437623915839386196989339984175865611290932895638485827512283879634622589907034847096838980553398268338905605705315464924834076955485269257682765843392777664062904318116756644819538761883164862381873685805923051342196114892111881287659915424456096361326051748180740843339721465950121631833352165428366344241754810081140762710579390137795215443629123183303201044796731629341661542390258966032612552126580439913324626563213547393121217728067632048719897064596438939163041106934301355643192260261867872030533878188557727018817797219012064641958276099544136480610826250078810896212505254064619595899307426216931651016613164877613570296351724055264357110051005104450572173606849938075379012356137114572525910752676385589168436483206759652170097284388598518122222819376116616668668677988651997615236221431416155794821321118852088948452164682783715959922435191327367306488124638818446090532334864386359317233873012285172875896330714873881780586230596002778688422250420590175698633544778262136505069053046737202152515000629854634631225453245996997340762744567896897683212149150732909707719966588817675821630380251456266588599804209831660991462715440400663143017564651072677052296295930367391822676512661642282350234567553218318066651318510488484545671729568971887621684270732981974442582657502555066960418690332945218280990034155505553171409775830458482159957769211244505225186771766058316021949327301666418107251589707938065072144733816368743637495699897181007119363672460040974223449086641663004605507793014252452324150238463715514559124307431648478948480649031081489229583165223570218974125422263886587593014744330199975749832650568652404661542746543584685860761547297457070273167102314576665676644281998277713093924236551494770138725647883566971887853912300960949802636372591951717316415323846182747445131420005722224687602711525724505110953736568981699982016588947035894059736087136235396798804019434387781559696138411966704777989194870090051835909943079457649936020314680876367897457337488804889342331824364904005266943816631681518612047693872607083945336048154993001716858914072302230374294986610531277637599664647525761147514008899238689946802093944865612982597431648203028809043429562401771290925843222821220221381984318518256971016750121270624021542153515130386081256853244444367484914891752438843250797295149886721543902585582757118492217204960123203770309672216674331373413106027454841661967870247822106376003696537006476355273043676224973894002060133928765135363584693312631060562155459381152426642778209514491263275588735458188352331628933634618912177576995916817414488324819680108333628484452298807271017999262374749573133359090629722111402666396222385680310709557844049479865847370371052888681758484468279513921172987571336140289500145715018352119752770038578015899178947425013401300127437407370742417936981313256586495414080577779206819073613295495616470088979364942613889412761986064194695007864245229507746572756141381631296520158744674976555295090641263347052773693500264217945862968279067638400570545295645101215649957363189020594680392829579100421069725620358166238990265142774404651313214675897426856915450639509067666430132550249899558736957729149134897455567522281433543572641590004104680065574765670218392339212945158169184150881086867571886152571967168554313973896590720756936727220836539470730927013315692910659341873475158458470126655615462441995158315954151939511273063300886194505696974565094554136157229342443179717136929856112199241960351175807276429269197890499465409641085642062784426814592379352503462375465863970515978587513684361149310234112956522343379971981371597362554454936073021505980295972008495071373782735582839020790315746731585379301761331493816177446530605808429464853673304026407795154959378483787633063564625705350463034691447418107455883000309296946366661073007243304045776482685028838002008851289504082990593295275880067366989920444277570125244978920952170379026945572560007109938761613198104928252403788745956590787853554427261091429610604918533858289450772568672857761038718335787097038460136322722686041522730425401591378345421772626791444602479976279959405768242486240438643761942789693778711249657924342230374692832057736458423233219577240600287201609844083746303985992580991788963670357594058530041336110846551706356077397613112805635688714967880284989534244344762769169389881849090231243521036475955122622077756066742087511736941067173845326094796597468590630794368210612224954123553942178823051906353531483791652084305835902971726116252537157475662145657380931714419831140815806083445720624105235437885030684297204505236434076592712666976824101012830755017074502633839078370658682735477057827898200514155221007510613638137487912484925852457091252959682882653923443403785941929872835592880297618416779211663640832606748090540030645657525350751507948732043164639582883271102013442123164886439827457848733532216150940568894919046231658572225485225206458473432734181073118597025097566463612081431443036235150794446289285631948929204446683135592886762490026398988228526812920199231416567113757666688272931131119878203069743744924840944759900480430891938065950574334062210821510243185005616211586978896991897817766986444187550852999673745075040798224214593453818994894588014347961489185666560344927219766694105143601860779087549125932626663612565564409033214390913478843147314377092524468116170092539021019317072722599034111214284277300140629993405328185829267641875816004937560397687637179519312883491217996052547063536123514245638062577729521924077330200361077744818877828439193328112781735262817094813914687376724296088277828975791250370859161139524787037197486378998433750840039570768811383507910992127258386074924141184583857518576033327684966586076243543853768660537909632661411116657215630517291649312419771420784817850822071737488952936913879386296186556673501095465266697898) := by decide

set_option maxRecDepth 1000000 in
set_option maxHeartbeats 4000000 in
lemma mtMix1Chunk2 : Nat.iterate (stepIba1 [20240307]) 156 (313, 0, 62685089405509111925910797243914719854890513935494713084094713797279779630627496305943786046941309007281293105221577504421353501605599255248785149356818580886163074212016138319710181437623915839386196989339984175865611290932895638485827512283879634622589907034847096838980553398268338905605705315464924834076955485269257682765843392777664062904318116756644819538761883164862381873685805923051342196114892111881287659915424456096361326051748180740843339721465950121631833352165428366344241754810081140762710579390137795215443629123183303201044796731629341661542390258966032612552126580439913324626563213547393121217728067632048719897064596438939163041106934301355643192260261867872030533878188557727018817797219012064641958276099544136480610826250078810896212505254064619595899307426216931651016613164877613570296351724055264357110051005104450572173606849938075379012356137114572525910752676385589168436483206759652170097284388598518122222819376116616668668677988651997615236221431416155794821321118852088948452164682783715959922435191327367306488124638818446090532334864386359317233873012285172875896330714873881780586230596002778688422250420590175698633544778262136505069053046737202152515000629854634631225453245996997340762744567896897683212149150732909707719966588817675821630380251456266588599804209831660991462715440400663143017564651072677052296295930367391822676512661642282350234567553218318066651318510488484545671729568971887621684270732981974442582657502555066960418690332945218280990034155505553171409775830458482159957769211244505225186771766058316021949327301666418107251589707938065072144733816368743637495699897181007119363672460040974223449086641663004605507793014252452324150238463715514559124307431648478948480649031081489229583165223570218974125422263886587593014744330199975749832650568652404661542746543584685860761547297457070273167102314576665676644281998277713093924236551494770138725647883566971887853912300960949802636372591951717316415323846182747445131420005722224687602711525724505110953736568981699982016588947035894059736087136235396798804019434387781559696138411966704777989194870090051835909943079457649936020314680876367897457337488804889342331824364904005266943816631681518612047693872607083945336048154993001716858914072302230374294986610531277637599664647525761147514008899238689946802093944865612982597431648203028809043429562401771290925843222821220221381984318518256971016750121270624021542153515130386081256853244444367484914891752438843250797295149886721543902585582757118492217204960123203770309672216674331373413106027454841661967870247822106376003696537006476355273043676224973894002060133928765135363584693312631060562155459381152426642778209514491263275588735458188352331628933634618912177576995916817414488324819680108333628484452298807271017999262374749573133359090629722111402666396222385680310709557844049479865847370371052888681758484468279513921172987571336140289500145715018352119752770038578015899178947425013401300127437407370742417936981313256586495414080577779206819073613295495616470088979364942613889412761986064194695007864245229507746572756141381631296520158744674976555295090641263347052773693500264217945862968279067638400570545295645101215649957363189020594680392829579100421069725620358166238990265142774404651313214675897426856915450639509067666430132550249899558736957729149134897455567522281433543572641590004104680065574765670218392339212945158169184150881086867571886152571967168554313973896590720756936727220836539470730927013315692910659341873475158458470126655615462441995158315954151939511273063300886194505696974565094554136157229342443179717136929856112199241960351175807276429269197890499465409641085642062784426814592379352503462375465863970515978587513684361149310234112956522343379971981371597362554454936073021505980295972008495071373782735582839020790315746731585379301761331493816177446530605808429464853673304026407795154959378483787633063564625705350463034691447418107455883000309296946366661073007243304045776482685028838002008851289504082990593295275880067366989920444277570125244978920952170379026945572560007109938761613198104928252403788745956590787853554427261091429610604918533858289450772568672857761038718335787097038460136322722686041522730425401591378345421772626791444602479976279959405768242486240438643761942789693778711249657924342230374692832057736458423233219577240600287201609844083746303985992580991788963670357594058530041336110846551706356077397613112805635688714967880284989534244344762769169389881849090231243521036475955122622077756066742087511736941067173845326094796597468590630794368210612224954123553942178823051906353531483791652084305835902971726116252537157475662145657380931714419831140815806083445720624105235437885030684297204505236434076592712666976824101012830755017074502633839078370658682735477057827898200514155221007510613638137487912484925852457091252959682882653923443403785941929872835592880297618416779211663640832606748090540030645657525350751507948732043164639582883271102013442123164886439827457848733532216150940568894919046231658572225485225206458473432734181073118597025097566463612081431443036235150794446289285631948929204446683135592886762490026398988228526812920199231416567113757666688272931131119878203069743744924840944759900480430891938065950574334062210821510243185005616211586978896991897817766986444187550852999673745075040798224214593453818994894588014347961489185666560344927219766694105143601860779087549125932626663612565564409033214390913478843147314377092524468116170092539021019317072722599034111214284277300140629993405328185829267641875816004937560397687637179519312883491217996052547063536123514245638062577729521924077330200361077744818877828439193328112781735262817094813914687376724296088277828975791250370859161139524787037197486378998433750840039570768811383507910992127258386074924141184583857518576033327684966586076243543853768660537909632661411116657215630517291649312419771420784817850822071737488952936913879386296186556673501095465266697898) = (469, 0, 62685089405509111925910797243914719854890513935494713084094713797279779630627496305943786046941309007281293105221577504421353501605599255248785149356818580886163074212016138319710181437623915839386196989339984175865611290932895638485827512283879634622589907034847096838980553398268338905605705315464924834076955485269257682765843392777664062904318116756644819538761883164862381873685805923051342196114892111881287659915424456096361326051748180740843339721465950121631833352165428366344241754810081140762710579390137795215443629123183303201044796731629341661542390258966032612552126580439913324626563213547393121217728067632048719897064596438939163041106934301355643192260261867872030533878188557727018817797219012064641958276099544136480610826250078810896212505254064619595899307426216931651016613164877613570296351724055264357110051005104450572173606849938075379012356137114572525910752676385589168436483206759652170097284388598518122222819376116616668668677988651997615236221431416155794821321118852088948452164682783715959922435191327367306488124638818446090532334864386359317233873012285172875896330714873881780586230596002778688422250420590175698633544778262136505069053046737202152515000629854634631225453245996997340762744567896897683212149150732909707719966588817675821630380251456266588599804209831660991462715440400663143017564651072677052296295930367391822676512661642282350234567553218318066651318510488484545671729568971887621684270732981974442582657502555066960418690332945218280815111900045445335997186732365935342805831030710545760291992527568694383215745435740561917972325960118602810348281952669221618011913705148357228877429211208379707965547085281400753760008966969376739494097228727451903402997988883652384234646470436343834750234303363097689455998996495024523848162372971108590410851979528304895859941042416667358208293893613023388959339692589188817645291686555822769925969301445912259695869256510969189860794994556147679879565872493797587262084913296360218740108425788354333756834913992958505676032032735336811835689995848315834678715625938370037829387982404820846690706921292755210248735569311077418135520113263004895111204354935324129191488906536119339759977661191145867960932917024503150491279876768718376004893218633234886081210664691243158418090134642191052565828448811250395918729872235644601667303045105300354022607091091219158305333080842563044745576791305278506790443372949934841624128191281538689312731646392633816772315804097398440258590723655035706005480869376777065970555021455091291737239329213137602429738640514716235876278933783651404658271702336669503914842405614594324447114785551458078752678844407018451520850420418114562198994747725025910904983917107785354854360881629862397435078957862046028515865215058714300030729494455464121964053120817653770424272590125280841040736070748708236362703857663304026863332752697579004157925946588824337523297892509479579777668605359097494524487204828601997093506770862423695579556487550228350662826387289275483476691088949234929902667701130111197411238663490470084120975467608895614664289713319173980104048657952965318050866142965561833067179151124630769105264431784699884365603058680086646384741598008009612036897028876154645179405034622762665294868022977179094423251264233519409689551275306844107971297526305542693153230009625692210899645881794268064985700376029585947288219155881694342593864360724462923020620943315918045082211604239919161233324364468287943795790764382550307657119281184241001948533253376355808678692446673901967308674348188498095207529354952068319637651768703907364200511267595443629453325439928263729319958016522449301935330923678864601703462734524738394201554182152516860236953981403018701747422517659178895824849720513028153581621227215909690635116497104700771357536576780625975996061054547031299512734792300346435763806641544080192260240723733713938117909910678903238800460751109278204405861731957949739943719252946017000850956740402230865155623687595154361301321704641713742705016158897938990059575597013507046452397717203796535277234602474551426433313371138947700792610356877183216014660234314511198130510676747707883352140838907441140777527850631890827231528577613255676816586042300242719136559478014836150126775871837574242520357336820915733607451367352484928456649445960226510833233391511751334484462987970181453480317000622445626768667135546430836001130220642534681679884446987887483886764078034549752650972371277072551112040458026183332465539691899647402906117398066667331996743786693378029888339200489898728774755763049842692439018126733616344028954340890020487947875956593141775016341666540260174646092658638022578919569543856140381076040477990437448474351561235324635076340723663439116066919773638117281591980616739825233592700377512975199579673153494672966523922193368649339659794294114812277673692544474216544166513920295705197587925081634469669670557748430322523559067787453856276152373413886674303922036724329511943389517664744637278871800462753224864584544852477962680039701635578501481529824706034690263089935113510785461561992984778055991462267133016457427254675065537005485792662651552459489317888792598929925810704620896482704746856832214601188141890759614401672085322111128224735637225607957242546084166576140739809691001203563319938419286962552466671635292892238673497694646076388189155423931159839633627486637377315613556485447161627104607748455794603378958059863604819016442879799136182697284853674065797474060784318254827261593516466504701184194042388240241074172315247352279080819408988565742985838627306159055681956787303596169700553872468751923643085897180253640747283121505863188609625065343068038241952998951540237334092540988506125730837797083812725816563862176314505004185800889113487705535448206561283389662920370864347576232849767780507995083388368067747991801281772580128354523046014992416910441237403725714555967582062292607670593898606979320961037396016554412125734453336771656241075043792258900123980427182678255261470792518804756303233104235323936699885389385674976384682) := by decide

set_option maxRecDepth 1000000 in
set_option maxHeartbeats 4000000 in
lemma mtMix1Chunk3 : Nat.iterate (stepIba1 [20240307]) 156 (469, 0, 62685089405509111925910797243914719854890513935494713084094713797279779630627496305943786046941309007281293105221577504421353501605599255248785149356818580886163074212016138319710181437623915839386196989339984175865611290932895638485827512283879634622589907034847096838980553398268338905605705315464924834076955485269257682765843392777664062904318116756644819538761883164862381873685805923051342196114892111881287659915424456096361326051748180740843339721465950121631833352165428366344241754810081140762710579390137795215443629123183303201044796731629341661542390258966032612552126580439913324626563213547393121217728067632048719897064596438939163041106934301355643192260261867872030533878188557727018817797219012064641958276099544136480610826250078810896212505254064619595899307426216931651016613164877613570296351724055264357110051005104450572173606849938075379012356137114572525910752676385589168436483206759652170097284388598518122222819376116616668668677988651997615236221431416155794821321118852088948452164682783715959922435191327367306488124638818446090532334864386359317233873012285172875896330714873881780586230596002778688422250420590175698633544778262136505069053046737202152515000629854634631225453245996997340762744567896897683212149150732909707719966588817675821630380251456266588599804209831660991462715440400663143017564651072677052296295930367391822676512661642282350234567553218318066651318510488484545671729568971887621684270732981974442582657502555066960418690332945218280815111900045445335997186732365935342805831030710545760291992527568694383215745435740561917972325960118602810348281952669221618011913705148357228877429211208379707965547085281400753760008966969376739494097228727451903402997988883652384234646470436343834750234303363097689455998996495024523848162372971108590410851979528304895859941042416667358208293893613023388959339692589188817645291686555822769925969301445912259695869256510969189860794994556147679879565872493797587262084913296360218740108425788354333756834913992958505676032032735336811835689995848315834678715625938370037829387982404820846690706921292755210248735569311077418135520113263004895111204354935324129191488906536119339759977661191145867960932917024503150491279876768718376004893218633234886081210664691243158418090134642191052565828448811250395918729872235644601667303045105300354022607091091219158305333080842563044745576791305278506790443372949934841624128191281538689312731646392633816772315804097398440258590723655035706005480869376777065970555021455091291737239329213137602429738640514716235876278933783651404658271702336669503914842405614594324447114785551458078752678844407018451520850420418114562198994747725025910904983917107785354854360881629862397435078957862046028515865215058714300030729494455464121964053120817653770424272590125280841040736070748708236362703857663304026863332752697579004157925946588824337523297892509479579777668605359097494524487204828601997093506770862423695579556487550228350662826387289275483476691088949234929902667701130111197411238663490470084120975467608895614664289713319173980104048657952965318050866142965561833067179151124630769105264431784699884365603058680086646384741598008009612036897028876154645179405034622762665294868022977179094423251264233519409689551275306844107971297526305542693153230009625692210899645881794268064985700376029585947288219155881694342593864360724462923020620943315918045082211604239919161233324364468287943795790764382550307657119281184241001948533253376355808678692446673901967308674348188498095207529354952068319637651768703907364200511267595443629453325439928263729319958016522449301935330923678864601703462734524738394201554182152516860236953981403018701747422517659178895824849720513028153581621227215909690635116497104700771357536576780625975996061054547031299512734792300346435763806641544080192260240723733713938117909910678903238800460751109278204405861731957949739943719252946017000850956740402230865155623687595154361301321704641713742705016158897938990059575597013507046452397717203796535277234602474551426433313371138947700792610356877183216014660234314511198130510676747707883352140838907441140777527850631890827231528577613255676816586042300242719136559478014836150126775871837574242520357336820915733607451367352484928456649445960226510833233391511751334484462987970181453480317000622445626768667135546430836001130220642534681679884446987887483886764078034549752650972371277072551112040458026183332465539691899647402906117398066667331996743786693378029888339200489898728774755763049842692439018126733616344028954340890020487947875956593141775016341666540260174646092658638022578919569543856140381076040477990437448474351561235324635076340723663439116066919773638117281591980616739825233592700377512975199579673153494672966523922193368649339659794294114812277673692544474216544166513920295705197587925081634469669670557748430322523559067787453856276152373413886674303922036724329511943389517664744637278871800462753224864584544852477962680039701635578501481529824706034690263089935113510785461561992984778055991462267133016457427254675065537005485792662651552459489317888792598929925810704620896482704746856832214601188141890759614401672085322111128224735637225607957242546084166576140739809691001203563319938419286962552466671635292892238673497694646076388189155423931159839633627486637377315613556485447161627104607748455794603378958059863604819016442879799136182697284853674065797474060784318254827261593516466504701184194042388240241074172315247352279080819408988565742985838627306159055681956787303596169700553872468751923643085897180253640747283121505863188609625065343068038241952998951540237334092540988506125730837797083812725816563862176314505004185800889113487705535448206561283389662920370864347576232849767780507995083388368067747991801281772580128354523046014992416910441237403725714555967582062292607670593898606979320961037396016554412125734453336771656241075043792258900123980427182678255261470792518804756303233104235323936699885389385674976384682) = (2, 0, 47493319660956597828577935455812922272398769342153953848971872630114491278288876141180273008991561812422793563970454419935174925121639183465427943412265595011934787465179055218488608546590641477629292985268408782388237031565099597339077892814511363532432049213925430976039525494403800213953470566200846926443548207365093415777583311097115507680229013210989208353077917762634435247181595327466499321722504506325165238529147083834128682313585346924046710054481697148473327260009052364157348270198614689052417294893802361658506958102086845225591565759694436962535769158812996836898693210805719491791432480219799130312589042436465877609811529240100775582014692141731071397011405610961290441482285446415361250694730620462711290073636553566108446496333778377535791519730288801375732508754770471399125977381443448627719659769255483771521987001056651439362393354333187552926194103860457572351698518803816303601488535858008672511227469535216976764909851708336050273651723145630813365672674876952376282475584296230647986696653904066167878815093489799426214607944969224161162161140746848841442661017831315422459596342089242566748570474853344934041147928131082791107278268118447092352336604263510224440274007438494727165437497930572729251206318205179576577425949005366319369936765959929756208894011505192711293790337206001589538146143312020875045979363510471651627653273873543275834667086359997043133863645328680339624385210599310618400691330782013972150816961011344091532631983883276902361025594764155187992724044630646649622851214040677075901152590609376622589359239127661267739464315542079375152293735951157763849525684506778425065978212801664239804777589060982734789154818622148097957221748106507139172571723698533201044424464279759573400192673328255423752065871662519826212871186557756914024014981208837723999885140009260150148730756090342224210210927151264819231058026444387206354813761042205027161557826187889886029657993897764345817036856601334948734985649664405003908431907407827549689777914143273216780219900136367184432653099232597725051752973020702272129210220505498758071807566903995032770144418525016729658960315795274820019131679923515407289107047077266313398854253148429865217126528875721950254278827565480056729105582485895841154988030110297234984054195912582367756902595840718158052728257036908724715460666464003701085019211487900483950781460736264156499531160842551384312860521845125084040045647834459216278853314843901551997064271130153071400779183751737197628526372205609887589906938211113156133797196535361079189690625830226899917019652593407894494046266793993419545614897161419783524186262459792425292814485853237502146083833719181328998210756695196701998374104204888549098884988328137838459410418569049925226067218906222660345785810205481720976998283783556958264926763071604621215340012302705675811782539363402051299355328876668612637638449435255868859414932412168067197497052289745009221802627668937135055476518144440280321999522187136402211493062703751467685400318901076666777068836072128750111888232802905452305440603366988992386912194765039683405599280530135625970857419123959016714134799277045470716972696958666399028180751472231254955761339926865988341637543578937387256097905905693296206452351166118380641676993485069051869669072169298166430265413630413922760225115309106561586870572993959837575041515109268016620485956228341225206264014418106851462673006836071097660040040309330851114582808162104980121309850503075146906235121270462095349656283751475640611280033537646840175580168067261315772866087549952371519159377489190413057682828735250856897003087625078652510162855729212546769537168814488197420933441641648715927010303737445853121115786347750627827886419040703412660784108785128475757615200982063701281365679704159834214812201798819406663375164371026237644805071958049554394530624952922321810273627484205864585281944663397383793006367357190702292496053893030859054848771605260168624514174048691867233559418378879808018826888452098420359973395830503062043535604380531328287861164914721003434882485546618818790015056031145947395817989630321480772566677297830457149877683777720530457634711020873612192565852924427423913496739450438768140984135937494616117715694682807744996787550655703127045618738070447290269886310960690997553719600403081649857985673576153378348753831566097165422467092696156047136813604564498729162159134023200009184893430176049236083029676942577386763801917331408085235244687915297287566032055100381635163979269894768073967893759428435581264743902053136683746958575986390813934297274503308415340696066723226343588902740309972393071577538785530802585719911506935635239334318079493338159950311981667952453976311164917410805706641697975996495233333297024298134387715965978607100643733872099242211506385103191370509831840924829226059512292205725828411935055047537813151064352383999823376413284413940980757883521373865016714360400921452844085287988220904942537539979764339063482172231333351952346414803657340426533435913216783384641062526899047618678218254192902296019617287272500252083539913745547334579112829855761911836360258638984234663541160119104374186156000166143981641917413277082004216268633424154079119023712532783759854577220817856474426424271887209133463837260857147700827158219625356042294237947066957978229897128480472438975859581039206553550212738752091733601186220055692637659077975152916884550159566444798789611393493776314494531048388319873941306787606652031425281832393457457520765048902172632827767171872349317765822758035852381665963655844311205965199681600549740139760684152164502580665887678382975889560987731802692591852718405479000467050665807500659593441828869753632452456461522288737175800304188387323188627179513636770067251807612002533411757089207327869955346506747094712738736287270341255109114193598491054517617365214693863720652993118527581692192829923939622289885466831396344526726213428030010779338728377251594870855678982710733332243044797837505534688428053071341827285331346172400286107190871949786491017238138760932568959268262906040052) := by decide

set_option maxRecDepth 1000000 in
set_option maxHeartbeats 4000000 in
lemma mtMix1Lemma : Nat.iterate (stepIba1 [20240307]) 624 (1, 0, 62685089405509111925910797243914719854890513935494713084094713797279779630627496305943786046941309007281293105221577504421353501605599255248785149356818580886163074212016138319710181437623915839386196989339984175865611290932895638485827512283879634622589907034847096838980553398268338905605705315464924834076955485269257682765843392777664062904318116756644819538761883164862381873685805923051342196114892111881287659915424456096361326051748180740843339721465950121631833352165428366344241754810081140762710579390137795215443629123183303201044796731629341661542390258966032612552126580439913324626563213547393121217728067632048719897064596438939163041106934301355643192260261867872030533878188557727018817797219012064641958276099544136480610826250078810896212505254064619595899307426216931651016613164877613570296351724055264357110051005104450572173606849938075379012356137114572525910752676385589168436483206759652170097284388598518122222819376116616668668677988651997615236221431416155794821321118852088948452164682783715959922435191327367306488124638818446090532334864386359317233873012285172875896330714873881780586230596002778688422250420590175698633544778262136505069053046737202152515000629854634631225453245996997340762744567896897683212149150732909707719966588817675821630380251456266588599804209831660991462715440400663143017564651072677052296295930367391822676512661642282350234567553218318066651318510488484545671729568971887621684270732981974442582657502555066960418690332945218280990034155505553171409775830458482159957769211244505225186771766058316021949327301666418107251589707938065072144733816368743637495699897181007119363672460040974223449086641663004605507793014252452324150238463715514559124307431648478948480649031081489229583165223570218974125422263886587593014744330199975749832650568652404661542746543584685860761547297457070273167102314576665676644281998277713093924236551494770138725647883566971887853912300960949802636372591951717316415323846182747445131420005722224687602711525724505110953736568981699982016588947035894059736087136235396798804019434387781559696138411966704777989194870090051835909943079457649936020314680876367897457337488804889342331824364904005266943816631681518612047693872607083945336048154993001716858914072302230374294986610531277637599664647525761147514008899238689946802093944865612982597431648203028809043429562401771290925843222821220221381984318518256971016750121270624021542153515130386081256853244444367484914891752438843250797295149886721543902585582757118492217204960123203770309672216674331373413106027454841661967870247822106376003696537006476355273043676224973894002060133928765135363584693312631060562155459381152426642778209514491263275588735458188352331628933634618912177576995916817414488324819680108333628484452298807271017999262374749573133359090629722111402666396222385680310709557844049479865847370371052888681758484468279513921172987571336140289500145715018352119752770038578015899178947425013401300127437407370742417936980607757405410607208376626705322894782663757703548808362869195819947150150865798288136994832911439410269353230208345410503242199606186650417333579047848825834242257112060317620885151293421378661990197161958015730358249113963865616811805417654957899792836277351433146683316643158745577273742588847277405020330699298979666450169324546781433015633218213248018986767013905101885085728066131985273947793365444250280947765884488609302913437528001802423347517836456663978922564542901160075954132077499502061844004777463229898312792357201472450520034421742281215395838957029567457078867297742321364249618062920323524100796395855490398720473188748064226082130624085325443879193454095100721902723688608983702297802922465778395428510531587340343771240068168890882622394112252370643121994567113348850616779414952571984309063927162547038575769391208822294299053225776973195785292510157058775147687493667385905281728614066936870793483631104130486096422866739022254251631022238998824784309871214211336594149372534724828516536519652291847191320934127662041939033266344757810255450761243406685982638804631309022215852991706323223872506356963395668107287976200691035733250165615782065576159415303394415966535152327550107294310945533761757937224536792146711105700674959937207778503501562879445241463662142281185819506210181780721218897488871995890898495582077564387715740371190275817001449471008660140255770382875594805433223352833476546594040372715841292252983175468170554585838014797017976570586587751089146553833551413146641975370517778330202052282190648141351908509904289169596729111939424597802445523234111653813513351586367960175769546506050051493655326103823629699245586418016468660736051425039803522537493270385743437525903109563398688573456345292160567787373069854610200635728800730405759403691875432721043746233636765094325962472698626875833148826372580999341547042531665331710768365982359935219565301595187067772247975847412037958098451506998773182171027695752045356894447709388159633645629545493246019135820915900506906032640701290570506299065346661219735445730896769091171352761432210047450382980030625592142825700677633624952217795344145832513082782540989616413040988227257601039794195623143595351637462190706636535912449334420058581521218743569834717812580171279915160794789675762903718339466089866492140118823551337811927493524761760551434001520245324751568861558716803095718510972066599595072196209156923318071322517301806566620458899402166430591631348363311478802800521980525250372511467674969151489645720009661369785217086930227581405674315978920044798755483144811069077253851302610194739624245401270682864202663540116818822475326676741780611737275972111438408802370422377608919256570335384654037352344114105999356653180812503717835632673409647782213628400383443178293619326757139369589058612122088577237252104060778375287897543799460272211546791798613974575310224299012205778134871255296492395729078221387894808011355820153110205338707003138385845672884757408327786763143168159295742358655797897448897721796416755370) = (2, 0, 47493319660956597828577935455812922272398769342153953848971872630114491278288876141180273008991561812422793563970454419935174925121639183465427943412265595011934787465179055218488608546590641477629292985268408782388237031565099597339077892814511363532432049213925430976039525494403800213953470566200846926443548207365093415777583311097115507680229013210989208353077917762634435247181595327466499321722504506325165238529147083834128682313585346924046710054481697148473327260009052364157348270198614689052417294893802361658506958102086845225591565759694436962535769158812996836898693210805719491791432480219799130312589042436465877609811529240100775582014692141731071397011405610961290441482285446415361250694730620462711290073636553566108446496333778377535791519730288801375732508754770471399125977381443448627719659769255483771521987001056651439362393354333187552926194103860457572351698518803816303601488535858008672511227469535216976764909851708336050273651723145630813365672674876952376282475584296230647986696653904066167878815093489799426214607944969224161162161140746848841442661017831315422459596342089242566748570474853344934041147928131082791107278268118447092352336604263510224440274007438494727165437497930572729251206318205179576577425949005366319369936765959929756208894011505192711293790337206001589538146143312020875045979363510471651627653273873543275834667086359997043133863645328680339624385210599310618400691330782013972150816961011344091532631983883276902361025594764155187992724044630646649622851214040677075901152590609376622589359239127661267739464315542079375152293735951157763849525684506778425065978212801664239804777589060982734789154818622148097957221748106507139172571723698533201044424464279759573400192673328255423752065871662519826212871186557756914024014981208837723999885140009260150148730756090342224210210927151264819231058026444387206354813761042205027161557826187889886029657993897764345817036856601334948734985649664405003908431907407827549689777914143273216780219900136367184432653099232597725051752973020702272129210220505498758071807566903995032770144418525016729658960315795274820019131679923515407289107047077266313398854253148429865217126528875721950254278827565480056729105582485895841154988030110297234984054195912582367756902595840718158052728257036908724715460666464003701085019211487900483950781460736264156499531160842551384312860521845125084040045647834459216278853314843901551997064271130153071400779183751737197628526372205609887589906938211113156133797196535361079189690625830226899917019652593407894494046266793993419545614897161419783524186262459792425292814485853237502146083833719181328998210756695196701998374104204888549098884988328137838459410418569049925226067218906222660345785810205481720976998283783556958264926763071604621215340012302705675811782539363402051299355328876668612637638449435255868859414932412168067197497052289745009221802627668937135055476518144440280321999522187136402211493062703751467685400318901076666777068836072128750111888232802905452305440603366988992386912194765039683405599280530135625970857419123959016714134799277045470716972696958666399028180751472231254955761339926865988341637543578937387256097905905693296206452351166118380641676993485069051869669072169298166430265413630413922760225115309106561586870572993959837575041515109268016620485956228341225206264014418106851462673006836071097660040040309330851114582808162104980121309850503075146906235121270462095349656283751475640611280033537646840175580168067261315772866087549952371519159377489190413057682828735250856897003087625078652510162855729212546769537168814488197420933441641648715927010303737445853121115786347750627827886419040703412660784108785128475757615200982063701281365679704159834214812201798819406663375164371026237644805071958049554394530624952922321810273627484205864585281944663397383793006367357190702292496053893030859054848771605260168624514174048691867233559418378879808018826888452098420359973395830503062043535604380531328287861164914721003434882485546618818790015056031145947395817989630321480772566677297830457149877683777720530457634711020873612192565852924427423913496739450438768140984135937494616117715694682807744996787550655703127045618738070447290269886310960690997553719600403081649857985673576153378348753831566097165422467092696156047136813604564498729162159134023200009184893430176049236083029676942577386763801917331408085235244687915297287566032055100381635163979269894768073967893759428435581264743902053136683746958575986390813934297274503308415340696066723226343588902740309972393071577538785530802585719911506935635239334318079493338159950311981667952453976311164917410805706641697975996495233333297024298134387715965978607100643733872099242211506385103191370509831840924829226059512292205725828411935055047537813151064352383999823376413284413940980757883521373865016714360400921452844085287988220904942537539979764339063482172231333351952346414803657340426533435913216783384641062526899047618678218254192902296019617287272500252083539913745547334579112829855761911836360258638984234663541160119104374186156000166143981641917413277082004216268633424154079119023712532783759854577220817856474426424271887209133463837260857147700827158219625356042294237947066957978229897128480472438975859581039206553550212738752091733601186220055692637659077975152916884550159566444798789611393493776314494531048388319873941306787606652031425281832393457457520765048902172632827767171872349317765822758035852381665963655844311205965199681600549740139760684152164502580665887678382975889560987731802692591852718405479000467050665807500659593441828869753632452456461522288737175800304188387323188627179513636770067251807612002533411757089207327869955346506747094712738736287270341255109114193598491054517617365214693863720652993118527581692192829923939622289885466831396344526726213428030010779338728377251594870855678982710733332243044797837505534688428053071341827285331346172400286107190871949786491017238138760932568959268262906040052) := by
  rw [show (624:Nat) = 156+(156+(156+156)) from rfl, Function.iterate_add_apply,
    Function.iterate_add_apply, Function.iterate_add_apply,
    mtMix1Chunk0, mtMix1Chunk1, mtMix1Chunk2, mtMix1Chunk3]

set_option maxRecDepth 1000000 in
set_option maxHeartbeats 4000000 in
lemma mtMix2Chunk0 : Nat.iterate stepIba2 156 (2, 47493319660956597828577935455812922272398769342153953848971872630114491278288876141180273008991561812422793563970454419935174925121639183465427943412265595011934787465179055218488608546590641477629292985268408782388237031565099597339077892814511363532432049213925430976039525494403800213953470566200846926443548207365093415777583311097115507680229013210989208353077917762634435247181595327466499321722504506325165238529147083834128682313585346924046710054481697148473327260009052364157348270198614689052417294893802361658506958102086845225591565759694436962535769158812996836898693210805719491791432480219799130312589042436465877609811529240100775582014692141731071397011405610961290441482285446415361250694730620462711290073636553566108446496333778377535791519730288801375732508754770471399125977381443448627719659769255483771521987001056651439362393354333187552926194103860457572351698518803816303601488535858008672511227469535216976764909851708336050273651723145630813365672674876952376282475584296230647986696653904066167878815093489799426214607944969224161162161140746848841442661017831315422459596342089242566748570474853344934041147928131082791107278268118447092352336604263510224440274007438494727165437497930572729251206318205179576577425949005366319369936765959929756208894011505192711293790337206001589538146143312020875045979363510471651627653273873543275834667086359997043133863645328680339624385210599310618400691330782013972150816961011344091532631983883276902361025594764155187992724044630646649622851214040677075901152590609376622589359239127661267739464315542079375152293735951157763849525684506778425065978212801664239804777589060982734789154818622148097957221748106507139172571723698533201044424464279759573400192673328255423752065871662519826212871186557756914024014981208837723999885140009260150148730756090342224210210927151264819231058026444387206354813761042205027161557826187889886029657993897764345817036856601334948734985649664405003908431907407827549689777914143273216780219900136367184432653099232597725051752973020702272129210220505498758071807566903995032770144418525016729658960315795274820019131679923515407289107047077266313398854253148429865217126528875721950254278827565480056729105582485895841154988030110297234984054195912582367756902595840718158052728257036908724715460666464003701085019211487900483950781460736264156499531160842551384312860521845125084040045647834459216278853314843901551997064271130153071400779183751737197628526372205609887589906938211113156133797196535361079189690625830226899917019652593407894494046266793993419545614897161419783524186262459792425292814485853237502146083833719181328998210756695196701998374104204888549098884988328137838459410418569049925226067218906222660345785810205481720976998283783556958264926763071604621215340012302705675811782539363402051299355328876668612637638449435255868859414932412168067197497052289745009221802627668937135055476518144440280321999522187136402211493062703751467685400318901076666777068836072128750111888232802905452305440603366988992386912194765039683405599280530135625970857419123959016714134799277045470716972696958666399028180751472231254955761339926865988341637543578937387256097905905693296206452351166118380641676993485069051869669072169298166430265413630413922760225115309106561586870572993959837575041515109268016620485956228341225206264014418106851462673006836071097660040040309330851114582808162104980121309850503075146906235121270462095349656283751475640611280033537646840175580168067261315772866087549952371519159377489190413057682828735250856897003087625078652510162855729212546769537168814488197420933441641648715927010303737445853121115786347750627827886419040703412660784108785128475757615200982063701281365679704159834214812201798819406663375164371026237644805071958049554394530624952922321810273627484205864585281944663397383793006367357190702292496053893030859054848771605260168624514174048691867233559418378879808018826888452098420359973395830503062043535604380531328287861164914721003434882485546618818790015056031145947395817989630321480772566677297830457149877683777720530457634711020873612192565852924427423913496739450438768140984135937494616117715694682807744996787550655703127045618738070447290269886310960690997553719600403081649857985673576153378348753831566097165422467092696156047136813604564498729162159134023200009184893430176049236083029676942577386763801917331408085235244687915297287566032055100381635163979269894768073967893759428435581264743902053136683746958575986390813934297274503308415340696066723226343588902740309972393071577538785530802585719911506935635239334318079493338159950311981667952453976311164917410805706641697975996495233333297024298134387715965978607100643733872099242211506385103191370509831840924829226059512292205725828411935055047537813151064352383999823376413284413940980757883521373865016714360400921452844085287988220904942537539979764339063482172231333351952346414803657340426533435913216783384641062526899047618678218254192902296019617287272500252083539913745547334579112829855761911836360258638984234663541160119104374186156000166143981641917413277082004216268633424154079119023712532783759854577220817856474426424271887209133463837260857147700827158219625356042294237947066957978229897128480472438975859581039206553550212738752091733601186220055692637659077975152916884550159566444798789611393493776314494531048388319873941306787606652031425281832393457457520765048902172632827767171872349317765822758035852381665963655844311205965199681600549740139760684152164502580665887678382975889560987731802692591852718405479000467050665807500659593441828869753632452456461522288737175800304188387323188627179513636770067251807612002533411757089207327869955346506747094712738736287270341255109114193598491054517617365214693863720652993118527581692192829923939622289885466831396344526726213428030010779338728377251594870855678982710733332243044797837505534688428053071341827285331346172400286107190871949786491017238138760932568959268262906040052) = (158, 47493319660956597828577935455812922272398769342153953848971872630114491278288876141180273008991561812422793563970454419935174925121639183465427943412265595011934787465179055218488608546590641477629292985268408782388237031565099597339077892814511363532432049213925430976039525494403800213953470566200846926443548207365093415777583311097115507680229013210989208353077917762634435247181595327466499321722504506325165238529147083834128682313585346924046710054481697148473327260009052364157348270198614689052417294893802361658506958102086845225591565759694436962535769158812996836898693210805719491791432480219799130312589042436465877609811529240100775582014692141731071397011405610961290441482285446415361250694730620462711290073636553566108446496333778377535791519730288801375732508754770471399125977381443448627719659769255483771521987001056651439362393354333187552926194103860457572351698518803816303601488535858008672511227469535216976764909851708336050273651723145630813365672674876952376282475584296230647986696653904066167878815093489799426214607944969224161162161140746848841442661017831315422459596342089242566748570474853344934041147928131082791107278268118447092352336604263510224440274007438494727165437497930572729251206318205179576577425949005366319369936765959929756208894011505192711293790337206001589538146143312020875045979363510471651627653273873543275834667086359997043133863645328680339624385210599310618400691330782013972150816961011344091532631983883276902361025594764155187992724044630646649622851214040677075901152590609376622589359239127661267739464315542079375152293735951157763849525684506778425065978212801664239804777589060982734789154818622148097957221748106507139172571723698533201044424464279759573400192673328255423752065871662519826212871186557756914024014981208837723999885140009260150148730756090342224210210927151264819231058026444387206354813761042205027161557826187889886029657993897764345817036856601334948734985649664405003908431907407827549689777914143273216780219900136367184432653099232597725051752973020702272129210220505498758071807566903995032770144418525016729658960315795274820019131679923515407289107047077266313398854253148429865217126528875721950254278827565480056729105582485895841154988030110297234984054195912582367756902595840718158052728257036908724715460666464003701085019211487900483950781460736264156499531160842551384312860521845125084040045647834459216278853314843901551997064271130153071400779183751737197628526372205609887589906938211113156133797196535361079189690625830226899917019652593407894494046266793993419545614897161419783524186262459792425292814485853237502146083833719181328998210756695196701998374104204888549098884988328137838459410418569049925226067218906222660345785810205481720976998283783556958264926763071604621215340012302705675811782539363402051299355328876668612637638449435255868859414932412168067197497052289745009221802627668937135055476518144440280321999522187136402211493062703751467685400318901076666777068836072128750111888232802905452305440603366988992386912194765039683405599280530135625970857419123959016714134799277045470716972696958666399028180751472231254955761339926865988341637543578937387256097905905693296206452351166118380641676993485069051869669072169298166430265413630413922760225115309106561586870572993959837575041515109268016620485956228341225206264014418106851462673006836071097660040040309330851114582808162104980121309850503075146906235121270462095349656283751475640611280033537646840175580168067261315772866087549952371519159377489190413057682828735250856897003087625078652510162855729212546769537168814488197420933441641648715927010303737445853121115786347750627827886419040703412660784108785128475757615200982063701281365679704159834214812201798819406663375164371026237644805071958049554394530624952922321810273627484205864585281944663397383793006367357190702292496053893030859054848771605260168624514174048691867233559418378879808018826888452098420359973395830503062043535604380531328287861164914721003434882485546618818790015056031145947395817989630321480772566677297830457149877683777720530457634711020873612192565852924427423913496739450438768140984135937494616117715694682807744996787550655703127045618738070447290269886310960690997553719600403081649857985673576153378348753831566097165422467092696156047136813604564498729162159134023200009184893430176049236083029676942577386763801917331408085235244687915297287566032055100381635163979269894768073967893759428435581264743900110489252702870839172057988485712501203528680730743103002904670043892121691264838945801153142113038765250207845276621647720710849583787854264365185896767109951166497621975306981271089574595852192006261091686304003748507775622952268939388525757156899592246962991770264406445189479575378147391023532314938931980434531094135095037005539994437124252252357742050909350524493275087340005767249048229520693668911591776013678009876185898084332853254240393136033649333942327156861693234167460900985962079805099901727041247025883582899868214026469542471461186125752763348138862080433503018231493935186190016347031130943000861637322730780225388979654904545137225424425360917571897510540728559011120765728365910722331322405380378058731394828692832729673487749095446671251985541740634012178176697878787688137259602664605648021316588777442678286257784722507860899170721882888060458709753552562525532595319966669034490197865386273320032057780276270413127748133831622478249796965308308847681811551547241458563135429362564711255021378209101793810801071453285954146900999546643658707017738016224778848436767555588981304156989171218646037480040243733586698483398287355373093299219740987332741463500720298268761353788434202475938687397292428345191521872456754526416512131510032332426024766082183641669986974105379073213147880784089378019444646119989518938722761437386270997883001446633631003180238598031154452147293434940362824526015379206962523055690017158267730991679060423051379827084959291349857741434880780523559108233593534813737979636) := by decide

set_option maxRecDepth 1000000 in
set_option maxHeartbeats 4000000 in
lemma mtMix2Chunk1 : Nat.iterate stepIba2 156 (158, 47493319660956597828577935455812922272398769342153953848971872630114491278288876141180273008991561812422793563970454419935174925121639183465427943412265595011934787465179055218488608546590641477629292985268408782388237031565099597339077892814511363532432049213925430976039525494403800213953470566200846926443548207365093415777583311097115507680229013210989208353077917762634435247181595327466499321722504506325165238529147083834128682313585346924046710054481697148473327260009052364157348270198614689052417294893802361658506958102086845225591565759694436962535769158812996836898693210805719491791432480219799130312589042436465877609811529240100775582014692141731071397011405610961290441482285446415361250694730620462711290073636553566108446496333778377535791519730288801375732508754770471399125977381443448627719659769255483771521987001056651439362393354333187552926194103860457572351698518803816303601488535858008672511227469535216976764909851708336050273651723145630813365672674876952376282475584296230647986696653904066167878815093489799426214607944969224161162161140746848841442661017831315422459596342089242566748570474853344934041147928131082791107278268118447092352336604263510224440274007438494727165437497930572729251206318205179576577425949005366319369936765959929756208894011505192711293790337206001589538146143312020875045979363510471651627653273873543275834667086359997043133863645328680339624385210599310618400691330782013972150816961011344091532631983883276902361025594764155187992724044630646649622851214040677075901152590609376622589359239127661267739464315542079375152293735951157763849525684506778425065978212801664239804777589060982734789154818622148097957221748106507139172571723698533201044424464279759573400192673328255423752065871662519826212871186557756914024014981208837723999885140009260150148730756090342224210210927151264819231058026444387206354813761042205027161557826187889886029657993897764345817036856601334948734985649664405003908431907407827549689777914143273216780219900136367184432653099232597725051752973020702272129210220505498758071807566903995032770144418525016729658960315795274820019131679923515407289107047077266313398854253148429865217126528875721950254278827565480056729105582485895841154988030110297234984054195912582367756902595840718158052728257036908724715460666464003701085019211487900483950781460736264156499531160842551384312860521845125084040045647834459216278853314843901551997064271130153071400779183751737197628526372205609887589906938211113156133797196535361079189690625830226899917019652593407894494046266793993419545614897161419783524186262459792425292814485853237502146083833719181328998210756695196701998374104204888549098884988328137838459410418569049925226067218906222660345785810205481720976998283783556958264926763071604621215340012302705675811782539363402051299355328876668612637638449435255868859414932412168067197497052289745009221802627668937135055476518144440280321999522187136402211493062703751467685400318901076666777068836072128750111888232802905452305440603366988992386912194765039683405599280530135625970857419123959016714134799277045470716972696958666399028180751472231254955761339926865988341637543578937387256097905905693296206452351166118380641676993485069051869669072169298166430265413630413922760225115309106561586870572993959837575041515109268016620485956228341225206264014418106851462673006836071097660040040309330851114582808162104980121309850503075146906235121270462095349656283751475640611280033537646840175580168067261315772866087549952371519159377489190413057682828735250856897003087625078652510162855729212546769537168814488197420933441641648715927010303737445853121115786347750627827886419040703412660784108785128475757615200982063701281365679704159834214812201798819406663375164371026237644805071958049554394530624952922321810273627484205864585281944663397383793006367357190702292496053893030859054848771605260168624514174048691867233559418378879808018826888452098420359973395830503062043535604380531328287861164914721003434882485546618818790015056031145947395817989630321480772566677297830457149877683777720530457634711020873612192565852924427423913496739450438768140984135937494616117715694682807744996787550655703127045618738070447290269886310960690997553719600403081649857985673576153378348753831566097165422467092696156047136813604564498729162159134023200009184893430176049236083029676942577386763801917331408085235244687915297287566032055100381635163979269894768073967893759428435581264743900110489252702870839172057988485712501203528680730743103002904670043892121691264838945801153142113038765250207845276621647720710849583787854264365185896767109951166497621975306981271089574595852192006261091686304003748507775622952268939388525757156899592246962991770264406445189479575378147391023532314938931980434531094135095037005539994437124252252357742050909350524493275087340005767249048229520693668911591776013678009876185898084332853254240393136033649333942327156861693234167460900985962079805099901727041247025883582899868214026469542471461186125752763348138862080433503018231493935186190016347031130943000861637322730780225388979654904545137225424425360917571897510540728559011120765728365910722331322405380378058731394828692832729673487749095446671251985541740634012178176697878787688137259602664605648021316588777442678286257784722507860899170721882888060458709753552562525532595319966669034490197865386273320032057780276270413127748133831622478249796965308308847681811551547241458563135429362564711255021378209101793810801071453285954146900999546643658707017738016224778848436767555588981304156989171218646037480040243733586698483398287355373093299219740987332741463500720298268761353788434202475938687397292428345191521872456754526416512131510032332426024766082183641669986974105379073213147880784089378019444646119989518938722761437386270997883001446633631003180238598031154452147293434940362824526015379206962523055690017158267730991679060423051379827084959291349857741434880780523559108233593534813737979636) = (314, 47493319660956597828577935455812922272398769342153953848971872630114491278288876141180273008991561812422793563970454419935174925121639183465427943412265595011934787465179055218488608546590641477629292985268408782388237031565099597339077892814511363532432049213925430976039525494403800213953470566200846926443548207365093415777583311097115507680229013210989208353077917762634435247181595327466499321722504506325165238529147083834128682313585346924046710054481697148473327260009052364157348270198614689052417294893802361658506958102086845225591565759694436962535769158812996836898693210805719491791432480219799130312589042436465877609811529240100775582014692141731071397011405610961290441482285446415361250694730620462711290073636553566108446496333778377535791519730288801375732508754770471399125977381443448627719659769255483771521987001056651439362393354333187552926194103860457572351698518803816303601488535858008672511227469535216976764909851708336050273651723145630813365672674876952376282475584296230647986696653904066167878815093489799426214607944969224161162161140746848841442661017831315422459596342089242566748570474853344934041147928131082791107278268118447092352336604263510224440274007438494727165437497930572729251206318205179576577425949005366319369936765959929756208894011505192711293790337206001589538146143312020875045979363510471651627653273873543275834667086359997043133863645328680339624385210599310618400691330782013972150816961011344091532631983883276902361025594764155187992724044630646649622851214040677075901152590609376622589359239127661267739464315542079375152293735951157763849525684506778425065978212801664239804777589060982734789154818622148097957221748106507139172571723698533201044424464279759573400192673328255423752065871662519826212871186557756914024014981208837723999885140009260150148730756090342224210210927151264819231058026444387206354813761042205027161557826187889886029657993897764345817036856601334948734985649664405003908431907407827549689777914143273216780219900136367184432653099232597725051752973020702272129210220505498758071807566903995032770144418525016729658960315795274820019131679923515407289107047077266313398854253148429865217126528875721950254278827565480056729105582485895841154988030110297234984054195912582367756902595840718158052728257036908724715460666464003701085019211487900483950781460736264156499531160842551384312860521845125084040045647834459216278853314843901551997064271130153071400779183751737197628526372205609887589906938211113156133797196535361079189690625830226899917019652593407894494046266793993419545614897161419783524186262459792425292814485853237502146083833719181328998210756695196701998374104204888549098884988328137838459410418569049925226067218906222660345785810205481720976998283783556958264926763071604621215340012302705675811782539363402051299355328876668612637638449435255868859414932412168067197497052289745009221802627668937135055476518144440280321999522187136402211493062703751467685400318901076663842014701285505627719117537957010475011817698576814132447101317313668765589429244686839537637248609773034845941136219813507467327727901071813270537039220301020458492430683727051158877737540157130439642151790523310715706610041365571613153599418679484982690482823601617014853835397323134232054330732371835427107100332309269249703167178332202314986178310735334087498066093166155331455320691765678598728928613683441633294935843788191733828947163740943731473335883410624912800853943195822680854005893996690052899571530099643867124541098969211890098455975100018347015107988640444990968177453028445646166848366664406543903893683906979888674261250191668518302448557718057765995400019053587657063136751554256161532890428823704900217432561596569081167438026596379884658554485031572451367123659555078047218329421705574961614895696011441211834619359647643626873473332439105446781176000613804999475341551901242154996493707509942405079402702268487477982157214473776554579037799130219670106559929362990822085270438914742810477328135366994046590992438030818866726089701817382210648239967477010004679462649356561758478807926400721372292884913224526395997689873217834562349835211504785431940068675648401287191265747688399298632785855686161968570590063163411586199162023828245074432420432929292536636549382985830175532285830068304025325352422467585774757640468627701210012862536255520000503339271957666589740493988729700753675776635711960666574956824669642398677711349600943757108583015668476462411751811728113246989241037260631468697296775542023188766374280201139120883795111809219891844784338860333031888007373655704162942839627314422619660253145527150423405811072946705943036909000343897353659129999311119674578327095423588194130249835402101249284535339544140218756020434805724285054920725541432870914156008081361280520310701873802231825695163566753630175209398410031120019186099042366809197409297599452717568126745544167878785401466779192097758594081402915030730792353454657912762099294287977342840703625184153297402499727456857498753890792757522357659852121367668155962623522157012647027029339583688043893336486201007039570561847192621703745524907345755132764752769183563934014807936022360157686915345728431625869924573248385982816972743027686508729555100781692007998477337745740697446667572941660579688905989854126241447159958294202773195554614349265430765049035754588834620092926478625897169910382186524130220885608557590716620007587485662614906589274712164004388117729788402732716654072239026133772258767700427645725145870671267250273055480356226736530343845505493911936668633346629904837348473532246344039242000634183197388392204613901095214481928538366101553195215516516985795319056123002980507564624766331015514419263247294671867532372352854118503147781247236246314010097704742859749305692312675525613651649042044565116132496665690205028580978998453016438391066633668230706236972031033759132412610243389256318025709928669414854465231315057144628292680317743437850320248172286772960360183163736690426447564394227436379695094976089844) := by decide

set_option maxRecDepth 1000000 in
set_option maxHeartbeats 4000000 in
lemma mtMix2Chunk2 : Nat.iterate stepIba2 156 (314, 47493319660956597828577935455812922272398769342153953848971872630114491278288876141180273008991561812422793563970454419935174925121639183465427943412265595011934787465179055218488608546590641477629292985268408782388237031565099597339077892814511363532432049213925430976039525494403800213953470566200846926443548207365093415777583311097115507680229013210989208353077917762634435247181595327466499321722504506325165238529147083834128682313585346924046710054481697148473327260009052364157348270198614689052417294893802361658506958102086845225591565759694436962535769158812996836898693210805719491791432480219799130312589042436465877609811529240100775582014692141731071397011405610961290441482285446415361250694730620462711290073636553566108446496333778377535791519730288801375732508754770471399125977381443448627719659769255483771521987001056651439362393354333187552926194103860457572351698518803816303601488535858008672511227469535216976764909851708336050273651723145630813365672674876952376282475584296230647986696653904066167878815093489799426214607944969224161162161140746848841442661017831315422459596342089242566748570474853344934041147928131082791107278268118447092352336604263510224440274007438494727165437497930572729251206318205179576577425949005366319369936765959929756208894011505192711293790337206001589538146143312020875045979363510471651627653273873543275834667086359997043133863645328680339624385210599310618400691330782013972150816961011344091532631983883276902361025594764155187992724044630646649622851214040677075901152590609376622589359239127661267739464315542079375152293735951157763849525684506778425065978212801664239804777589060982734789154818622148097957221748106507139172571723698533201044424464279759573400192673328255423752065871662519826212871186557756914024014981208837723999885140009260150148730756090342224210210927151264819231058026444387206354813761042205027161557826187889886029657993897764345817036856601334948734985649664405003908431907407827549689777914143273216780219900136367184432653099232597725051752973020702272129210220505498758071807566903995032770144418525016729658960315795274820019131679923515407289107047077266313398854253148429865217126528875721950254278827565480056729105582485895841154988030110297234984054195912582367756902595840718158052728257036908724715460666464003701085019211487900483950781460736264156499531160842551384312860521845125084040045647834459216278853314843901551997064271130153071400779183751737197628526372205609887589906938211113156133797196535361079189690625830226899917019652593407894494046266793993419545614897161419783524186262459792425292814485853237502146083833719181328998210756695196701998374104204888549098884988328137838459410418569049925226067218906222660345785810205481720976998283783556958264926763071604621215340012302705675811782539363402051299355328876668612637638449435255868859414932412168067197497052289745009221802627668937135055476518144440280321999522187136402211493062703751467685400318901076663842014701285505627719117537957010475011817698576814132447101317313668765589429244686839537637248609773034845941136219813507467327727901071813270537039220301020458492430683727051158877737540157130439642151790523310715706610041365571613153599418679484982690482823601617014853835397323134232054330732371835427107100332309269249703167178332202314986178310735334087498066093166155331455320691765678598728928613683441633294935843788191733828947163740943731473335883410624912800853943195822680854005893996690052899571530099643867124541098969211890098455975100018347015107988640444990968177453028445646166848366664406543903893683906979888674261250191668518302448557718057765995400019053587657063136751554256161532890428823704900217432561596569081167438026596379884658554485031572451367123659555078047218329421705574961614895696011441211834619359647643626873473332439105446781176000613804999475341551901242154996493707509942405079402702268487477982157214473776554579037799130219670106559929362990822085270438914742810477328135366994046590992438030818866726089701817382210648239967477010004679462649356561758478807926400721372292884913224526395997689873217834562349835211504785431940068675648401287191265747688399298632785855686161968570590063163411586199162023828245074432420432929292536636549382985830175532285830068304025325352422467585774757640468627701210012862536255520000503339271957666589740493988729700753675776635711960666574956824669642398677711349600943757108583015668476462411751811728113246989241037260631468697296775542023188766374280201139120883795111809219891844784338860333031888007373655704162942839627314422619660253145527150423405811072946705943036909000343897353659129999311119674578327095423588194130249835402101249284535339544140218756020434805724285054920725541432870914156008081361280520310701873802231825695163566753630175209398410031120019186099042366809197409297599452717568126745544167878785401466779192097758594081402915030730792353454657912762099294287977342840703625184153297402499727456857498753890792757522357659852121367668155962623522157012647027029339583688043893336486201007039570561847192621703745524907345755132764752769183563934014807936022360157686915345728431625869924573248385982816972743027686508729555100781692007998477337745740697446667572941660579688905989854126241447159958294202773195554614349265430765049035754588834620092926478625897169910382186524130220885608557590716620007587485662614906589274712164004388117729788402732716654072239026133772258767700427645725145870671267250273055480356226736530343845505493911936668633346629904837348473532246344039242000634183197388392204613901095214481928538366101553195215516516985795319056123002980507564624766331015514419263247294671867532372352854118503147781247236246314010097704742859749305692312675525613651649042044565116132496665690205028580978998453016438391066633668230706236972031033759132412610243389256318025709928669414854465231315057144628292680317743437850320248172286772960360183163736690426447564394227436379695094976089844) = (470, 47493319660956597828577935455812922272398769342153953848971872630114491278288876141180273008991561812422793563970454419935174925121639183465427943412265595011934787465179055218488608546590641477629292985268408782388237031565099597339077892814511363532432049213925430976039525494403800213953470566200846926443548207365093415777583311097115507680229013210989208353077917762634435247181595327466499321722504506325165238529147083834128682313585346924046710054481697148473327260009052364157348270198614689052417294893802361658506958102086845225591565759694436962535769158812996836898693210805719491791432480219799130312589042436465877609811529240100775582014692141731071397011405610961290441482285446415361250694730620462711290073636553566108446496333778377535791519730288801375732508754770471399125977381443448627719659769255483771521987001056651439362393354333187552926194103860457572351698518803816303601488535858008672511227469535216976764909851708336050273651723145630813365672674876952376282475584296230647986696653904066167878815093489799426214607944969224161162161140746848841442661017831315422459596342089242566748570474853344934041147928131082791107278268118447092352336604263510224440274007438494727165437497930572729251206318205179576577425949005366319369936765959929756208894011505192711293790337206001589538146143312020875045979363510471651627653273873543275834667086359997043133863645328680339624385210599310618400691330782013972150816961011344091532631983883276902361025595246055981168637857766116056251525945207831854609651834166256119662497024913068754970001384230464197387711044405907081881398946042098108288719516252312435162889810586315047616303035498651927664465117499391308953249127794486137034916655988514132736220681170861282037156740554138069980709151302481608471735547578771012399303427582928354171031051255022526718617892724646323429334414751007747333820928263378641996411713093468522557755179648046373027833318825980526548508048212800536844789193005424257798601104978724180474650867751866559706739970642971668483603905790427924045359512701806905844800157731320579567854199260287221263146823339763440728108412487893296185390093682206819846494704197753036122714361138920645489578245033611403706121460964469642023871565482511537508921730872280804175171557569400050342442435367925149144400239895260720670510705869125455656813656935343116642237277994100447784916396868581419801743914154892137850114282945393043743774137658929195725090390139355478806157589211329500506643814239153777297122917425534374567014694324764946164081538607904855790689880215378103299821223168584528564211972260465540065992206877078999896963958453619810034686903510496516598949179533136883669449404825717258482632818022506054146121532283758234354723519521892018646616154478258218724139737721125984685644362140877583112341468746003332387862031694669153008864852869259755626507668487671709287017672091316529507505772818365046881903055393803950677455629768829706208752719248972010398862933411798510107172177155336641310907475900443568804738492482915817516815646429638489029185470775042990719025059582091516933536883962892719080628114768438945765040287643804821202124545357308581024673257706742321923120674124261274317465410105297087819860665064272600240270802866089667533532533351654291359438886630166933003897936051977648099452681905162450448639050543414326289184148957966585290857854685420678078566268350892122711582551245849927530668301116421502020806478803902164495926842591555986631015553186051183852108662078972780636346805782220637118660665431758210032184726239351158221257077901239512790802802987007982957037306525233486231813155848866472730263095300212403389085654951531385720849163656545234118285251040070360351759436159247086345445011251473765758796489101566826252687983517591222175304128085561181789956861421778965175460814472090074645636696937259605581328724335503320204807584478258596157867794005948281339512173148190675404082282904683809424810658331223784059883056942905402216833105298502537831993517703711312814681926711522107807387306446059050930675920983113881469147014287189620249042075462736172228478807835566359352831395605365350394693403599195651118847516492937541472175874316151224558053373918695174449777448325965562459732008935688374683201869787627933393936535222851003611598011947267859196336519548841064324929518553926600300220372293068932483995330708499176353092875142395770159009760419531163463935701213654871976775933731793693418486648977037146535320967691572440533155963073420448002425201553849925304869581208347509862326018717093511065295193115815315201197005583295245562003346792720852830174847274391342794633593479770246283159658822380806048950140823691270587920203750882261980378907700823652565948941114273142707237534542360709655269199586477168148113941504570106094057954282580719201598170843595529247263572952462917076123004687899886230756015788443326633879667644942083084542542775227804462513712088786215647919106449694851069943632284176790941721015471323196843928138889074862973455168332543056129995349641163393985718927359401287605413450874513359285442415236942142710973514883930385545476524559938481489523320806990764425744658717200272394787145365949430076586398299100498085493837891348036368824622207206878042137440520130684841619162521355639944261391545576010633328008160796899209927689327687563294697629933200749751497608146812707121593619221860585112204545473874235676593093902104678220019698235965399275118227909047978694252529286312343398285064673967200987822290840888822139311783702697332499375805522624567166844189816167024579088311381978724359430576279545490718058083335683023669139440708961471603337604316358553330166699361813245990338388708318496982000304111307810003959025171744653308547533044837196700558308202134724872966137117858915045564997879527440645057427879532130111367839174785297083088284481623460195111777055889641612171495041726470649383163746247069723861864386112927358829247060469414792941285014635616402177375943282428251746340087240461831225250210254580) := by decide

set_option maxRecDepth 1000000 in
set_option maxHeartbeats 4000000 in
lemma mtMix2Chunk3 : Nat.iterate stepIba2 155 (470, 47493319660956597828577935455812922272398769342153953848971872630114491278288876141180273008991561812422793563970454419935174925121639183465427943412265595011934787465179055218488608546590641477629292985268408782388237031565099597339077892814511363532432049213925430976039525494403800213953470566200846926443548207365093415777583311097115507680229013210989208353077917762634435247181595327466499321722504506325165238529147083834128682313585346924046710054481697148473327260009052364157348270198614689052417294893802361658506958102086845225591565759694436962535769158812996836898693210805719491791432480219799130312589042436465877609811529240100775582014692141731071397011405610961290441482285446415361250694730620462711290073636553566108446496333778377535791519730288801375732508754770471399125977381443448627719659769255483771521987001056651439362393354333187552926194103860457572351698518803816303601488535858008672511227469535216976764909851708336050273651723145630813365672674876952376282475584296230647986696653904066167878815093489799426214607944969224161162161140746848841442661017831315422459596342089242566748570474853344934041147928131082791107278268118447092352336604263510224440274007438494727165437497930572729251206318205179576577425949005366319369936765959929756208894011505192711293790337206001589538146143312020875045979363510471651627653273873543275834667086359997043133863645328680339624385210599310618400691330782013972150816961011344091532631983883276902361025595246055981168637857766116056251525945207831854609651834166256119662497024913068754970001384230464197387711044405907081881398946042098108288719516252312435162889810586315047616303035498651927664465117499391308953249127794486137034916655988514132736220681170861282037156740554138069980709151302481608471735547578771012399303427582928354171031051255022526718617892724646323429334414751007747333820928263378641996411713093468522557755179648046373027833318825980526548508048212800536844789193005424257798601104978724180474650867751866559706739970642971668483603905790427924045359512701806905844800157731320579567854199260287221263146823339763440728108412487893296185390093682206819846494704197753036122714361138920645489578245033611403706121460964469642023871565482511537508921730872280804175171557569400050342442435367925149144400239895260720670510705869125455656813656935343116642237277994100447784916396868581419801743914154892137850114282945393043743774137658929195725090390139355478806157589211329500506643814239153777297122917425534374567014694324764946164081538607904855790689880215378103299821223168584528564211972260465540065992206877078999896963958453619810034686903510496516598949179533136883669449404825717258482632818022506054146121532283758234354723519521892018646616154478258218724139737721125984685644362140877583112341468746003332387862031694669153008864852869259755626507668487671709287017672091316529507505772818365046881903055393803950677455629768829706208752719248972010398862933411798510107172177155336641310907475900443568804738492482915817516815646429638489029185470775042990719025059582091516933536883962892719080628114768438945765040287643804821202124545357308581024673257706742321923120674124261274317465410105297087819860665064272600240270802866089667533532533351654291359438886630166933003897936051977648099452681905162450448639050543414326289184148957966585290857854685420678078566268350892122711582551245849927530668301116421502020806478803902164495926842591555986631015553186051183852108662078972780636346805782220637118660665431758210032184726239351158221257077901239512790802802987007982957037306525233486231813155848866472730263095300212403389085654951531385720849163656545234118285251040070360351759436159247086345445011251473765758796489101566826252687983517591222175304128085561181789956861421778965175460814472090074645636696937259605581328724335503320204807584478258596157867794005948281339512173148190675404082282904683809424810658331223784059883056942905402216833105298502537831993517703711312814681926711522107807387306446059050930675920983113881469147014287189620249042075462736172228478807835566359352831395605365350394693403599195651118847516492937541472175874316151224558053373918695174449777448325965562459732008935688374683201869787627933393936535222851003611598011947267859196336519548841064324929518553926600300220372293068932483995330708499176353092875142395770159009760419531163463935701213654871976775933731793693418486648977037146535320967691572440533155963073420448002425201553849925304869581208347509862326018717093511065295193115815315201197005583295245562003346792720852830174847274391342794633593479770246283159658822380806048950140823691270587920203750882261980378907700823652565948941114273142707237534542360709655269199586477168148113941504570106094057954282580719201598170843595529247263572952462917076123004687899886230756015788443326633879667644942083084542542775227804462513712088786215647919106449694851069943632284176790941721015471323196843928138889074862973455168332543056129995349641163393985718927359401287605413450874513359285442415236942142710973514883930385545476524559938481489523320806990764425744658717200272394787145365949430076586398299100498085493837891348036368824622207206878042137440520130684841619162521355639944261391545576010633328008160796899209927689327687563294697629933200749751497608146812707121593619221860585112204545473874235676593093902104678220019698235965399275118227909047978694252529286312343398285064673967200987822290840888822139311783702697332499375805522624567166844189816167024579088311381978724359430576279545490718058083335683023669139440708961471603337604316358553330166699361813245990338388708318496982000304111307810003959025171744653308547533044837196700558308202134724872966137117858915045564997879527440645057427879532130111367839174785297083088284481623460195111777055889641612171495041726470649383163746247069723861864386112927358829247060469414792941285014635616402177375943282428251746340087240461831225250210254580) = (2, 46617392851501629354163145860825767954375778637283853629522567416150894340016426316276569867795512856838885005741118190769779118187942445737633392965315433665980547081408707684979150776552919456275792819239906733287285288997426394826259244353283730557208395859138560541333405321069798513637230860334502623249420436147280195143521749487993321410488822037015742596151998114353183714659020255211754371936008808083215963413384197580958922116324203737758665315006939711586104354752604604197863948848294068973063080878787392836921651329632648661405854099257635620579673838159583183617837907844757999220315753517187940130259650782462653915075455734446682733914722148771745587656611120520975832486435197904266001045139301102457914063193539068438663101806967364527080370640652565252394425309243406131731062187524111987076276490273213064872715208032740011288776572222673965939582193254943541901639959791537623868122791014074427904646780302575624882901721817386847579766667694715471892709910368805936120563240871765056952672383187624243094791719438768991551887674408878972124073243475159970285411115306958720708007375418415135759865982738542230663239954179946125095105021343904691938494028803001253218941299642989625993865319594836981014968210634487932947896819005785660619691388106196118120198837859199527301497352622596053157161344126825224313890433758834930701760392673256510156529133363388297021606256535907381215349698794883093735422996868460251501046947500021759304115020622546599334864521290234315309991881640831910415956562407085768924988173636362734368386949195753818210135383127203694461107450760160205610192500055078599247397820311723735973275122660694724546589760525403619646439995359530003538965864295269894296406015743994811904387042660929868120110674789878470458378539525568221686108638384090358215229063324099137466426292652200429292820533529472737424135175993062651883353000880892447257596736137854347326811514837861749264708973939086289835301630303624928519810597586139309364217243669231499351714084975157870692791345183294353388115770968313159701750538824067500745532255635545850353020014201018669707884722820616744973737884528138765537900097573325956152308943876779702039273567693055543720970023414944626427075043965909829017393435909402006824559898532109306235914259328187558853168978843417587424506743260732089246761544467999643924297830878202598374361634818120068162606565396152666029156351584808275377767616053477331252274159641176595919693891468930983636623118570240987168753726875611831061750281651813804869174996687997242323680403625551783513598452515406053591765124450822742099999722659199972711693110479466718511802866168049403903856037745200423036666955496558186859371172188362296045927447057921160949523872144715956681845085179038618063307020061050355371412195154969361318445791622453222351182069964010901132543337133533429618121759804842112751442609325991915135422786681090834720662237137624222128710439540832176445398963603963463814052299488244541025344756330221779368097507744073573453962692238230176111653213123070250933742588129706039951061875171552426825379956716761524070562310508516425124561537716054132337923147101798793673815340484758515414826312467681943323368507583284930151204220543765630580077908676870226107124803350280077601420994368183643347293169186252052678906391916067796433743408961313737139676014247453937223500636071915713958758962900376539305901673796922827129801976253120547581902041295498693009077393525731396362545263751297930792453934947070814035558916161889152948515723120238343071957999371731224203165945284969803761161904066836510661567184083326465706897202233004031841502614784510949123830846257527315010868287590328424355138963058761584467388763239201108444210890334493099085684796779098097524474608120839408807741275490140924316036750300331710626704199677287260606876804127505643580219879802856599212010607536559310467578614408385442115946825672481706424934185219521900268470675953342107184454924567286392301653297512864973390192909307953756442739517355353244471776032071897444546059834239185445505017960923255488899303718830381482370896254855389389658392542331771091586798554690266173166828739598685745217768790565312841979548465962768198966178127756144284366501769032824317558567690217528121137555333686468411752072486190947859714635121781494020647926574662072070513681553963709553295766693756156930470715288106927173201226692560686277038743005065010977281410971036799087023608351125023736360388137656077132786123581765499895394936347832215462879991451192881902431708449562960335689729890600809245109008349807747688480940744595969732132497022324348862572963074773353241605911835951715846620733341626408660065202726870454888929440198670992835595907350933981972294758141962910284634152688515843009200900233211657661577130379005129766610884517749172545657688910615013535712532637329288582153354033250390466399459497908511409684010985537333652277953221172340563780940352526840014830775031372100602598102782849050549513310045447400940375334432160070241348569174873484991458164737707604970163090113142622165588446458485030042902348585140625057020439783471276734363086563272136740114593713619380344430917372578515352112779575115295345199359101826704082018962135691672166687718790287620058463142879196943051635583072305700555102674977721014992187458955275039133506890762574253128472574567366063471882522081996750817215812004559310282103343751580470922443648943388264231772664400386081838395882956770531551605818794440240784275852180068299318805894287169623966496026708371479787409978042702960476148453972439910399576748902527913680135409668328177190079448108932745294929172603705166181815114830013225748907523107384407418496891025155705299296647034034876936106482112249240318892669670646118884599495068366872212730911623485524037470607363148604768042630833745857978601435445683948072595429169799560295094072538259197690603376638947598368020860499838053927273286146170872839702296039949739810966167663413216767098710324600604338180359015628781595595213683210756123) := by decide

set_option maxRecDepth 1000000 in
set_option maxHeartbeats 4000000 in
lemma mtMix2Lemma : Nat.iterate stepIba2 623 (2, 47493319660956597828577935455812922272398769342153953848971872630114491278288876141180273008991561812422793563970454419935174925121639183465427943412265595011934787465179055218488608546590641477629292985268408782388237031565099597339077892814511363532432049213925430976039525494403800213953470566200846926443548207365093415777583311097115507680229013210989208353077917762634435247181595327466499321722504506325165238529147083834128682313585346924046710054481697148473327260009052364157348270198614689052417294893802361658506958102086845225591565759694436962535769158812996836898693210805719491791432480219799130312589042436465877609811529240100775582014692141731071397011405610961290441482285446415361250694730620462711290073636553566108446496333778377535791519730288801375732508754770471399125977381443448627719659769255483771521987001056651439362393354333187552926194103860457572351698518803816303601488535858008672511227469535216976764909851708336050273651723145630813365672674876952376282475584296230647986696653904066167878815093489799426214607944969224161162161140746848841442661017831315422459596342089242566748570474853344934041147928131082791107278268118447092352336604263510224440274007438494727165437497930572729251206318205179576577425949005366319369936765959929756208894011505192711293790337206001589538146143312020875045979363510471651627653273873543275834667086359997043133863645328680339624385210599310618400691330782013972150816961011344091532631983883276902361025594764155187992724044630646649622851214040677075901152590609376622589359239127661267739464315542079375152293735951157763849525684506778425065978212801664239804777589060982734789154818622148097957221748106507139172571723698533201044424464279759573400192673328255423752065871662519826212871186557756914024014981208837723999885140009260150148730756090342224210210927151264819231058026444387206354813761042205027161557826187889886029657993897764345817036856601334948734985649664405003908431907407827549689777914143273216780219900136367184432653099232597725051752973020702272129210220505498758071807566903995032770144418525016729658960315795274820019131679923515407289107047077266313398854253148429865217126528875721950254278827565480056729105582485895841154988030110297234984054195912582367756902595840718158052728257036908724715460666464003701085019211487900483950781460736264156499531160842551384312860521845125084040045647834459216278853314843901551997064271130153071400779183751737197628526372205609887589906938211113156133797196535361079189690625830226899917019652593407894494046266793993419545614897161419783524186262459792425292814485853237502146083833719181328998210756695196701998374104204888549098884988328137838459410418569049925226067218906222660345785810205481720976998283783556958264926763071604621215340012302705675811782539363402051299355328876668612637638449435255868859414932412168067197497052289745009221802627668937135055476518144440280321999522187136402211493062703751467685400318901076666777068836072128750111888232802905452305440603366988992386912194765039683405599280530135625970857419123959016714134799277045470716972696958666399028180751472231254955761339926865988341637543578937387256097905905693296206452351166118380641676993485069051869669072169298166430265413630413922760225115309106561586870572993959837575041515109268016620485956228341225206264014418106851462673006836071097660040040309330851114582808162104980121309850503075146906235121270462095349656283751475640611280033537646840175580168067261315772866087549952371519159377489190413057682828735250856897003087625078652510162855729212546769537168814488197420933441641648715927010303737445853121115786347750627827886419040703412660784108785128475757615200982063701281365679704159834214812201798819406663375164371026237644805071958049554394530624952922321810273627484205864585281944663397383793006367357190702292496053893030859054848771605260168624514174048691867233559418378879808018826888452098420359973395830503062043535604380531328287861164914721003434882485546618818790015056031145947395817989630321480772566677297830457149877683777720530457634711020873612192565852924427423913496739450438768140984135937494616117715694682807744996787550655703127045618738070447290269886310960690997553719600403081649857985673576153378348753831566097165422467092696156047136813604564498729162159134023200009184893430176049236083029676942577386763801917331408085235244687915297287566032055100381635163979269894768073967893759428435581264743902053136683746958575986390813934297274503308415340696066723226343588902740309972393071577538785530802585719911506935635239334318079493338159950311981667952453976311164917410805706641697975996495233333297024298134387715965978607100643733872099242211506385103191370509831840924829226059512292205725828411935055047537813151064352383999823376413284413940980757883521373865016714360400921452844085287988220904942537539979764339063482172231333351952346414803657340426533435913216783384641062526899047618678218254192902296019617287272500252083539913745547334579112829855761911836360258638984234663541160119104374186156000166143981641917413277082004216268633424154079119023712532783759854577220817856474426424271887209133463837260857147700827158219625356042294237947066957978229897128480472438975859581039206553550212738752091733601186220055692637659077975152916884550159566444798789611393493776314494531048388319873941306787606652031425281832393457457520765048902172632827767171872349317765822758035852381665963655844311205965199681600549740139760684152164502580665887678382975889560987731802692591852718405479000467050665807500659593441828869753632452456461522288737175800304188387323188627179513636770067251807612002533411757089207327869955346506747094712738736287270341255109114193598491054517617365214693863720652993118527581692192829923939622289885466831396344526726213428030010779338728377251594870855678982710733332243044797837505534688428053071341827285331346172400286107190871949786491017238138760932568959268262906040052) = (2, 46617392851501629354163145860825767954375778637283853629522567416150894340016426316276569867795512856838885005741118190769779118187942445737633392965315433665980547081408707684979150776552919456275792819239906733287285288997426394826259244353283730557208395859138560541333405321069798513637230860334502623249420436147280195143521749487993321410488822037015742596151998114353183714659020255211754371936008808083215963413384197580958922116324203737758665315006939711586104354752604604197863948848294068973063080878787392836921651329632648661405854099257635620579673838159583183617837907844757999220315753517187940130259650782462653915075455734446682733914722148771745587656611120520975832486435197904266001045139301102457914063193539068438663101806967364527080370640652565252394425309243406131731062187524111987076276490273213064872715208032740011288776572222673965939582193254943541901639959791537623868122791014074427904646780302575624882901721817386847579766667694715471892709910368805936120563240871765056952672383187624243094791719438768991551887674408878972124073243475159970285411115306958720708007375418415135759865982738542230663239954179946125095105021343904691938494028803001253218941299642989625993865319594836981014968210634487932947896819005785660619691388106196118120198837859199527301497352622596053157161344126825224313890433758834930701760392673256510156529133363388297021606256535907381215349698794883093735422996868460251501046947500021759304115020622546599334864521290234315309991881640831910415956562407085768924988173636362734368386949195753818210135383127203694461107450760160205610192500055078599247397820311723735973275122660694724546589760525403619646439995359530003538965864295269894296406015743994811904387042660929868120110674789878470458378539525568221686108638384090358215229063324099137466426292652200429292820533529472737424135175993062651883353000880892447257596736137854347326811514837861749264708973939086289835301630303624928519810597586139309364217243669231499351714084975157870692791345183294353388115770968313159701750538824067500745532255635545850353020014201018669707884722820616744973737884528138765537900097573325956152308943876779702039273567693055543720970023414944626427075043965909829017393435909402006824559898532109306235914259328187558853168978843417587424506743260732089246761544467999643924297830878202598374361634818120068162606565396152666029156351584808275377767616053477331252274159641176595919693891468930983636623118570240987168753726875611831061750281651813804869174996687997242323680403625551783513598452515406053591765124450822742099999722659199972711693110479466718511802866168049403903856037745200423036666955496558186859371172188362296045927447057921160949523872144715956681845085179038618063307020061050355371412195154969361318445791622453222351182069964010901132543337133533429618121759804842112751442609325991915135422786681090834720662237137624222128710439540832176445398963603963463814052299488244541025344756330221779368097507744073573453962692238230176111653213123070250933742588129706039951061875171552426825379956716761524070562310508516425124561537716054132337923147101798793673815340484758515414826312467681943323368507583284930151204220543765630580077908676870226107124803350280077601420994368183643347293169186252052678906391916067796433743408961313737139676014247453937223500636071915713958758962900376539305901673796922827129801976253120547581902041295498693009077393525731396362545263751297930792453934947070814035558916161889152948515723120238343071957999371731224203165945284969803761161904066836510661567184083326465706897202233004031841502614784510949123830846257527315010868287590328424355138963058761584467388763239201108444210890334493099085684796779098097524474608120839408807741275490140924316036750300331710626704199677287260606876804127505643580219879802856599212010607536559310467578614408385442115946825672481706424934185219521900268470675953342107184454924567286392301653297512864973390192909307953756442739517355353244471776032071897444546059834239185445505017960923255488899303718830381482370896254855389389658392542331771091586798554690266173166828739598685745217768790565312841979548465962768198966178127756144284366501769032824317558567690217528121137555333686468411752072486190947859714635121781494020647926574662072070513681553963709553295766693756156930470715288106927173201226692560686277038743005065010977281410971036799087023608351125023736360388137656077132786123581765499895394936347832215462879991451192881902431708449562960335689729890600809245109008349807747688480940744595969732132497022324348862572963074773353241605911835951715846620733341626408660065202726870454888929440198670992835595907350933981972294758141962910284634152688515843009200900233211657661577130379005129766610884517749172545657688910615013535712532637329288582153354033250390466399459497908511409684010985537333652277953221172340563780940352526840014830775031372100602598102782849050549513310045447400940375334432160070241348569174873484991458164737707604970163090113142622165588446458485030042902348585140625057020439783471276734363086563272136740114593713619380344430917372578515352112779575115295345199359101826704082018962135691672166687718790287620058463142879196943051635583072305700555102674977721014992187458955275039133506890762574253128472574567366063471882522081996750817215812004559310282103343751580470922443648943388264231772664400386081838395882956770531551605818794440240784275852180068299318805894287169623966496026708371479787409978042702960476148453972439910399576748902527913680135409668328177190079448108932745294929172603705166181815114830013225748907523107384407418496891025155705299296647034034876936106482112249240318892669670646118884599495068366872212730911623485524037470607363148604768042630833745857978601435445683948072595429169799560295094072538259197690603376638947598368020860499838053927273286146170872839702296039949739810966167663413216767098710324600604338180359015628781595595213683210756123) := by
  rw [show (623:Nat) = 155+(156+(156+156)) from rfl, Function.iterate_add_apply,
    Function.iterate_add_apply, Function.iterate_add_apply,
    mtMix2Chunk0, mtMix2Chunk1, mtMix2Chunk2, mtMix2Chunk3]

set_option maxRecDepth 1000000 in
set_option maxHeartbeats 4000000 in
lemma mtSeededLemma : pyRandomInit 20240307 = ⟨mtSeeded20240307, 624⟩ := by
  rw [pyRandomInit, show pyKey 20240307 = [20240307] from by decide, initByArray]
  rw [show (max 624 (List.length [20240307])) = 624 from by decide, mtInitLemma, mtMix1Lemma]
  show MTState.mk (mtSet (Nat.iterate stepIba2 623 (2, 47493319660956597828577935455812922272398769342153953848971872630114491278288876141180273008991561812422793563970454419935174925121639183465427943412265595011934787465179055218488608546590641477629292985268408782388237031565099597339077892814511363532432049213925430976039525494403800213953470566200846926443548207365093415777583311097115507680229013210989208353077917762634435247181595327466499321722504506325165238529147083834128682313585346924046710054481697148473327260009052364157348270198614689052417294893802361658506958102086845225591565759694436962535769158812996836898693210805719491791432480219799130312589042436465877609811529240100775582014692141731071397011405610961290441482285446415361250694730620462711290073636553566108446496333778377535791519730288801375732508754770471399125977381443448627719659769255483771521987001056651439362393354333187552926194103860457572351698518803816303601488535858008672511227469535216976764909851708336050273651723145630813365672674876952376282475584296230647986696653904066167878815093489799426214607944969224161162161140746848841442661017831315422459596342089242566748570474853344934041147928131082791107278268118447092352336604263510224440274007438494727165437497930572729251206318205179576577425949005366319369936765959929756208894011505192711293790337206001589538146143312020875045979363510471651627653273873543275834667086359997043133863645328680339624385210599310618400691330782013972150816961011344091532631983883276902361025594764155187992724044630646649622851214040677075901152590609376622589359239127661267739464315542079375152293735951157763849525684506778425065978212801664239804777589060982734789154818622148097957221748106507139172571723698533201044424464279759573400192673328255423752065871662519826212871186557756914024014981208837723999885140009260150148730756090342224210210927151264819231058026444387206354813761042205027161557826187889886029657993897764345817036856601334948734985649664405003908431907407827549689777914143273216780219900136367184432653099232597725051752973020702272129210220505498758071807566903995032770144418525016729658960315795274820019131679923515407289107047077266313398854253148429865217126528875721950254278827565480056729105582485895841154988030110297234984054195912582367756902595840718158052728257036908724715460666464003701085019211487900483950781460736264156499531160842551384312860521845125084040045647834459216278853314843901551997064271130153071400779183751737197628526372205609887589906938211113156133797196535361079189690625830226899917019652593407894494046266793993419545614897161419783524186262459792425292814485853237502146083833719181328998210756695196701998374104204888549098884988328137838459410418569049925226067218906222660345785810205481720976998283783556958264926763071604621215340012302705675811782539363402051299355328876668612637638449435255868859414932412168067197497052289745009221802627668937135055476518144440280321999522187136402211493062703751467685400318901076666777068836072128750111888232802905452305440603366988992386912194765039683405599280530135625970857419123959016714134799277045470716972696958666399028180751472231254955761339926865988341637543578937387256097905905693296206452351166118380641676993485069051869669072169298166430265413630413922760225115309106561586870572993959837575041515109268016620485956228341225206264014418106851462673006836071097660040040309330851114582808162104980121309850503075146906235121270462095349656283751475640611280033537646840175580168067261315772866087549952371519159377489190413057682828735250856897003087625078652510162855729212546769537168814488197420933441641648715927010303737445853121115786347750627827886419040703412660784108785128475757615200982063701281365679704159834214812201798819406663375164371026237644805071958049554394530624952922321810273627484205864585281944663397383793006367357190702292496053893030859054848771605260168624514174048691867233559418378879808018826888452098420359973395830503062043535604380531328287861164914721003434882485546618818790015056031145947395817989630321480772566677297830457149877683777720530457634711020873612192565852924427423913496739450438768140984135937494616117715694682807744996787550655703127045618738070447290269886310960690997553719600403081649857985673576153378348753831566097165422467092696156047136813604564498729162159134023200009184893430176049236083029676942577386763801917331408085235244687915297287566032055100381635163979269894768073967893759428435581264743902053136683746958575986390813934297274503308415340696066723226343588902740309972393071577538785530802585719911506935635239334318079493338159950311981667952453976311164917410805706641697975996495233333297024298134387715965978607100643733872099242211506385103191370509831840924829226059512292205725828411935055047537813151064352383999823376413284413940980757883521373865016714360400921452844085287988220904942537539979764339063482172231333351952346414803657340426533435913216783384641062526899047618678218254192902296019617287272500252083539913745547334579112829855761911836360258638984234663541160119104374186156000166143981641917413277082004216268633424154079119023712532783759854577220817856474426424271887209133463837260857147700827158219625356042294237947066957978229897128480472438975859581039206553550212738752091733601186220055692637659077975152916884550159566444798789611393493776314494531048388319873941306787606652031425281832393457457520765048902172632827767171872349317765822758035852381665963655844311205965199681600549740139760684152164502580665887678382975889560987731802692591852718405479000467050665807500659593441828869753632452456461522288737175800304188387323188627179513636770067251807612002533411757089207327869955346506747094712738736287270341255109114193598491054517617365214693863720652993118527581692192829923939622289885466831396344526726213428030010779338728377251594870855678982710733332243044797837505534688428053071341827285331346172400286107190871949786491017238138760932568959268262906040052)).2 0 2147483648) 624 = _
  rw [mtMix2Lemma]
  decide

lemma selectEvalW : select_daily_content 64 wStore date0 = some ([eA, eB, eC], some pX) := by
  rw [select_daily_content, show pySeed date0 = 20240307 from by decide, mtSeededLemma]
  decide

lemma selectEvalDup : select_daily_content 64 dupStore date0 = some ([eA, eA, eA], none) := by
  rw [select_daily_content, show pySeed date0 = 20240307 from by decide, mtSeededLemma]
  decide
/-! ## Generic properties of `_randbelow`, `sample` and `choice` -/

lemma randbelowLoop_lt : ∀ fuel k n s r s',
    randbelowLoop fuel k n s = some (r, s') → r < n := by
  intro fuel
  induction fuel with
  | zero => intro k n s r s' h; simp [randbelowLoop] at h
  | succ f ih =>
    intro k n s r s' h
    rw [randbelowLoop] at h
    split at h
    · cases h
      assumption
    · exact ih k n _ r s' h

lemma randbelow_lt {fuel n : Nat} {s : MTState} {r : Nat} {s' : MTState}
    (h : randbelow fuel n s = some (r, s')) (hn : 0 < n) : r < n := by
  rw [randbelow] at h
  rw [if_neg (Nat.pos_iff_ne_zero.mp hn)] at h
  exact randbelowLoop_lt fuel _ n s r s' h

lemma freshIndex_spec : ∀ fuel n sel s j s',
    freshIndex fuel n sel s = some (j, s') → 0 < n → j < n ∧ j ∉ sel := by
  intro fuel
  induction fuel with
  | zero => intro n sel s j s' h; simp [freshIndex] at h
  | succ f ih =>
    intro n sel s j s' h hn
    rw [freshIndex] at h
    split at h
    · exact Option.noConfusion h
    · rename_i j1 s1 hr
      split at h
      · exact ih n sel s1 j s' h hn
      · rename_i hmem
        cases h
        exact ⟨randbelow_lt hr hn, hmem⟩

lemma samplePoolLoop_spec : ∀ rem fuel m pool s res s' (f : List Nat) (orig : List Entry),
    samplePoolLoop fuel rem m pool s = some (res, s') →
    rem ≤ m → m ≤ pool.length → f.length = pool.length →
    (∀ i, i < m → f.getD i 0 < orig.length) →
    (∀ i, i < m → pool.getD i default = orig.getD (f.getD i 0) default) →
    (∀ i1 i2, i1 < m → i2 < m → f.getD i1 0 = f.getD i2 0 → i1 = i2) →
    ∃ idxs : List Nat, res = idxs.map (fun i => orig.getD i default) ∧
      res.length = rem ∧ idxs.Nodup ∧ (∀ i ∈ idxs, i < orig.length) ∧
      (∀ i ∈ idxs, ∃ t, t < m ∧ i = f.getD t 0) := by
  intro rem
  induction rem with
  | zero =>
    intro fuel m pool s res s' f orig h _ _ _ _ _ _
    rw [samplePoolLoop] at h
    cases h
    exact ⟨[], rfl, rfl, List.nodup_nil, by simp, by simp⟩
  | succ rem ih =>
    intro fuel m pool s res s' f orig h hrm hmp hfp hfb hpf hinj
    rw [samplePoolLoop] at h
    split at h
    · exact Option.noConfusion h
    · rename_i j s1 hr
      split at h
      · exact Option.noConfusion h
      · rename_i rest s2 hrec
        cases h
        have hm0 : 0 < m := Nat.lt_of_lt_of_le (Nat.succ_pos rem) hrm
        have hj : j < m := randbelow_lt hr hm0
        have hjlen : j < pool.length := Nat.lt_of_lt_of_le hj hmp
        have hm1 : m - 1 < m := Nat.sub_lt hm0 Nat.one_pos
        have hf_set : ∀ i, i < m - 1 →
            (f.set j (f.getD (m-1) 0)).getD i 0 =
              (if i = j then f.getD (m-1) 0 else f.getD i 0) := by
          intro i hi
          by_cases hij : i = j
          · rw [if_pos hij, hij]
            have hjf : j < f.length := by rw [hfp]; exact hjlen
            rw [List.getD_eq_getElem?_getD, List.getElem?_set_self hjf]
            simp
          · rw [if_neg hij]
            rw [List.getD_eq_getElem?_getD, List.getElem?_set_ne (fun he => hij he.symm),
              ← List.getD_eq_getElem?_getD]
        obtain ⟨idxs, hres, hlen, hnd, hbo, htr⟩ :=
          ih fuel (m-1) (pool.set j (pool.getD (m-1) default)) s1 rest _
            (f.set j (f.getD (m-1) 0)) orig hrec
            (by omega) (by rw [List.length_set]; omega) (by rw [List.length_set, List.length_set, hfp])
            (by
              intro i hi
              rw [hf_set i hi]
              by_cases hij : i = j
              · rw [if_pos hij]; exact hfb (m-1) hm1
              · rw [if_neg hij]; exact hfb i (by omega))
            (by
              intro i hi
              rw [hf_set i hi]
              by_cases hij : i = j
              · rw [if_pos hij, hij]
                rw [List.getD_eq_getElem?_getD, List.getElem?_set_self hjlen]
                simp only [Option.getD_some]
                exact hpf (m-1) hm1
              · rw [if_neg hij]
                rw [List.getD_eq_getElem?_getD, List.getElem?_set_ne (fun he => hij he.symm),
                  ← List.getD_eq_getElem?_getD]
                exact hpf i (by omega))
            (by
              intro i1 i2 h1 h2 heq
              rw [hf_set i1 h1, hf_set i2 h2] at heq
              by_cases e1 : i1 = j <;> by_cases e2 : i2 = j
              · omega
              · rw [if_pos e1, if_neg e2] at heq
                have := hinj (m-1) i2 hm1 (by omega) heq
                omega
              · rw [if_neg e1, if_pos e2] at heq
                have := hinj i1 (m-1) (by omega) hm1 heq
                omega
              · rw [if_neg e1, if_neg e2] at heq
                exact hinj i1 i2 (by omega) (by omega) heq)
        refine ⟨f.getD j 0 :: idxs, ?_, ?_, ?_, ?_, ?_⟩
        · simp only [List.map_cons]
          rw [← hpf j hj, hres]
        · simp [hlen]
        · refine List.nodup_cons.mpr ⟨?_, hnd⟩
          intro hmem
          obtain ⟨t, ht, hteq⟩ := htr _ hmem
          rw [hf_set t ht] at hteq
          by_cases htj : t = j
          · rw [if_pos htj] at hteq
            have := hinj j (m-1) hj hm1 hteq
            omega
          · rw [if_neg htj] at hteq
            have := hinj j t hj (by omega) hteq
            omega
        · intro i hi
          rcases List.mem_cons.mp hi with h1 | h2
          · subst h1; exact hfb j hj
          · exact hbo i h2
        · intro i hi
          rcases List.mem_cons.mp hi with h1 | h2
          · exact ⟨j, hj, h1⟩
          · obtain ⟨t, ht, hteq⟩ := htr i h2
            rw [hf_set t ht] at hteq
            by_cases htj : t = j
            · rw [if_pos htj] at hteq
              exact ⟨m-1, hm1, hteq⟩
            · rw [if_neg htj] at hteq
              exact ⟨t, by omega, hteq⟩

lemma sampleSetLoop_spec : ∀ rem fuel n sel pop s res s',
    sampleSetLoop fuel rem n sel pop s = some (res, s') → 0 < n →
    ∃ idxs : List Nat, res = idxs.map (fun i => pop.getD i default) ∧
      res.length = rem ∧ idxs.Nodup ∧ (∀ i ∈ idxs, i < n) ∧ (∀ i ∈ idxs, i ∉ sel) := by
  intro rem
  induction rem with
  | zero =>
    intro fuel n sel pop s res s' h _
    rw [sampleSetLoop] at h
    cases h
    exact ⟨[], rfl, rfl, List.nodup_nil, by simp, by simp⟩
  | succ rem ih =>
    intro fuel n sel pop s res s' h hn
    rw [sampleSetLoop] at h
    split at h
    · exact Option.noConfusion h
    · rename_i j s1 hr
      split at h
      · exact Option.noConfusion h
      · rename_i rest s2 hrec
        cases h
        obtain ⟨hjn, hjsel⟩ := freshIndex_spec fuel n sel s j s1 hr hn
        obtain ⟨idxs, hres, hlen, hnd, hbo, hsel⟩ := ih fuel n (j :: sel) pop s1 rest _ hrec hn
        refine ⟨j :: idxs, ?_, by simp [hlen], ?_, ?_, ?_⟩
        · simp only [List.map_cons]; rw [hres]
        · exact List.nodup_cons.mpr ⟨fun hmem => (hsel j hmem) (List.mem_cons_self j sel), hnd⟩
        · intro i hi
          rcases List.mem_cons.mp hi with h1 | h2
          · subst h1; exact hjn
          · exact hbo i h2
        · intro i hi
          rcases List.mem_cons.mp hi with h1 | h2
          · subst h1; exact hjsel
          · exact fun hc => (hsel i h2) (List.mem_cons_of_mem j hc)

lemma getD_range {n i : Nat} (hi : i < n) : (List.range n).getD i 0 = i := by
  rw [List.getD_eq_getElem?_getD, List.getElem?_range hi, Option.getD_some]

lemma sample_spec {fuel : Nat} {pop : List Entry} {k : Nat} {s : MTState}
    {res : List Entry} {s' : MTState} (h : sample fuel pop k s = some (res, s')) :
    res.length = k ∧ ∃ idxs : List Nat, idxs.Nodup ∧ (∀ i ∈ idxs, i < pop.length) ∧
      res = idxs.map (fun i => pop.getD i default) := by
  rw [sample] at h
  split at h
  · rename_i hk
    split at h
    · obtain ⟨idxs, hres, hlen, hnd, hbo, _⟩ :=
        samplePoolLoop_spec k fuel pop.length pop s res s' (List.range pop.length) pop h
          hk (Nat.le_refl _) (List.length_range _)
          (by intro i hi; rwa [getD_range hi])
          (by intro i hi; rw [getD_range hi])
          (by
            intro i1 i2 h1 h2 heq
            rwa [getD_range h1, getD_range h2] at heq)
      exact ⟨hlen, idxs, hnd, hbo, hres⟩
    · rename_i hss
      have hn : 0 < pop.length := by
        have h21 : 21 ≤ sampleSetsize k := by
          rw [sampleSetsize]
          by_cases h5 : k ≤ 5
          · rw [if_pos h5]
          · rw [if_neg h5]; exact Nat.le_add_right 21 _
        omega
      obtain ⟨idxs, hres, hlen, hnd, hbo, _⟩ :=
        sampleSetLoop_spec k fuel pop.length [] pop s res s' h hn
      exact ⟨hlen, idxs, hnd, hbo, hres⟩
  · exact Option.noConfusion h

lemma choice_mem {fuel : Nat} {seq : List Entry} {s : MTState} {p : Entry} {s' : MTState}
    (h : choice fuel seq s = some (p, s')) : p ∈ seq := by
  rw [choice] at h
  split at h
  · exact Option.noConfusion h
  · rename_i h0
    split at h
    · exact Option.noConfusion h
    · rename_i i s1 hr
      cases h
      have hi : i < seq.length := randbelow_lt hr (Nat.pos_of_ne_zero h0)
      rw [List.getD_eq_getElem?_getD, List.getElem?_eq_getElem hi, Option.getD_some]
      exact List.getElem_mem hi

/-- Inversion of the selector's control flow. -/
lemma select_inversion {fuel : Nat} {data : Store} {today : PyDate}
    {qs : List Entry} {pm : Option Entry}
    (h : select_daily_content fuel data today = some (qs, pm)) :
    ∃ s1, sample fuel data.quotes (min 3 data.quotes.length) (pyRandomInit (pySeed today))
        = some (qs, s1) ∧
      ((data.poems = [] ∧ pm = none) ∨
       (data.poems ≠ [] ∧ ∃ p s2, choice fuel data.poems s1 = some (p, s2) ∧ pm = some p)) := by
  rw [select_daily_content] at h
  split at h
  · exact Option.noConfusion h
  · rename_i qs0 s1 hs
    split at h
    · rename_i hp
      cases h
      exact ⟨s1, hs, Or.inl ⟨List.isEmpty_iff.mp hp, rfl⟩⟩
    · rename_i hp
      split at h
      · exact Option.noConfusion h
      · rename_i p s2 hc
        cases h
        exact ⟨s1, hs, Or.inr ⟨fun he => hp (by rw [he]; rfl), p, _, hc, rfl⟩⟩
/-! ## The seed derivation (claim C4) -/

lemma valLE_toDec : ∀ fuel n, n ≤ fuel → valLE (toDecDigitsRev fuel n) = n := by
  intro fuel
  induction fuel with
  | zero =>
    intro n h
    have h0 : n = 0 := Nat.le_zero.mp h
    subst h0
    rfl
  | succ f ih =>
    intro n h
    rw [toDecDigitsRev]
    by_cases h0 : n = 0
    · rw [if_pos h0, h0]; rfl
    · rw [if_neg h0, valLE]
      have hlt : n / 10 ≤ f := by
        have : n / 10 < n := Nat.div_lt_self (Nat.pos_of_ne_zero h0) (by omega)
        omega
      rw [ih (n / 10) hlt]
      omega

lemma valLE_append_single : ∀ (xs : List Nat) (d : Nat),
    valLE (xs ++ [d]) = valLE xs + d * 10 ^ xs.length := by
  intro xs
  induction xs with
  | nil => intro d; simp [valLE]
  | cons x xs ih =>
    intro d
    rw [List.cons_append, valLE, ih, valLE, List.length_cons]
    ring

lemma foldl_digits : ∀ (l : List Nat) (a : Nat),
    List.foldl (fun a d => a * 10 + d) a l = a * 10 ^ l.length + valLE l.reverse := by
  intro l
  induction l with
  | nil => intro a; simp [valLE]
  | cons d ds ih =>
    intro a
    rw [List.foldl_cons, ih, List.reverse_cons, valLE_append_single,
      List.length_reverse, List.length_cons]
    ring

lemma intOfDigits_eq_valLE (ds : List Nat) : intOfDigits ds = valLE ds.reverse := by
  rw [intOfDigits, foldl_digits]; ring

lemma intOfDigits_append (l1 l2 : List Nat) :
    intOfDigits (l1 ++ l2) = intOfDigits l1 * 10 ^ l2.length + intOfDigits l2 := by
  rw [intOfDigits, List.foldl_append, foldl_digits, ← intOfDigits, ← intOfDigits_eq_valLE]

lemma valLE_replicate_zero : ∀ k, valLE (List.replicate k 0) = 0 := by
  intro k
  induction k with
  | zero => rfl
  | succ k ih => rw [List.replicate_succ, valLE, ih]

lemma intOfDigits_replicate_zero (k : Nat) : intOfDigits (List.replicate k 0) = 0 := by
  rw [intOfDigits_eq_valLE, List.reverse_replicate, valLE_replicate_zero]

lemma intOfDigits_padLeft (w : Nat) (ds : List Nat) :
    intOfDigits (padLeft w ds) = intOfDigits ds := by
  rw [padLeft, intOfDigits_append, intOfDigits_replicate_zero]
  ring

lemma intOfDigits_decDigits (n : Nat) : intOfDigits (decDigits n) = n := by
  rw [decDigits, intOfDigits_eq_valLE, List.reverse_reverse, valLE_toDec n n (Nat.le_refl n)]

lemma toDecDigitsRev_len : ∀ fuel n k, n ≤ fuel → n < 10 ^ k →
    (toDecDigitsRev fuel n).length ≤ k := by
  intro fuel
  induction fuel with
  | zero => intro n k _ _; simp [toDecDigitsRev]
  | succ f ih =>
    intro n k hn hk
    rw [toDecDigitsRev]
    by_cases h0 : n = 0
    · rw [if_pos h0]; simp
    · rw [if_neg h0, List.length_cons]
      cases k with
      | zero =>
        exfalso
        have h1 : n < 1 := by simpa using hk
        omega
      | succ k =>
        have hdiv : n / 10 < 10 ^ k := by
          rw [Nat.div_lt_iff_lt_mul (by omega)]
          calc n < 10 ^ (k+1) := hk
            _ = 10 ^ k * 10 := by rw [Nat.pow_succ]
        have hfuel : n / 10 ≤ f := by
          have h2 : n / 10 < n := Nat.div_lt_self (Nat.pos_of_ne_zero h0) (by omega)
          omega
        have h3 := ih (n / 10) k hfuel hdiv
        omega

lemma padLeft_length (w : Nat) (ds : List Nat) (h : ds.length ≤ w) :
    (padLeft w ds).length = w := by
  rw [padLeft, List.length_append, List.length_replicate]
  omega

lemma decDigits_length_le (n k : Nat) (h : n < 10 ^ k) : (decDigits n).length ≤ k := by
  rw [decDigits, List.length_reverse]
  exact toDecDigitsRev_len n n k (Nat.le_refl n) h

/-- Claim C4: for every calendar date, the seed passed to the generator is the
`YYYYMMDD` encoding: `year * 10000 + month * 100 + day`. -/
theorem c4_seed_is_yyyymmdd (d : PyDate) (hv : isValidDate d) :
    pySeed d = d.year * 10000 + d.month * 100 + d.day := by
  obtain ⟨_, _, _, hm2, _, hd2⟩ := hv
  have hmlen : (padLeft 2 (decDigits d.month)).length = 2 :=
    padLeft_length 2 _ (decDigits_length_le d.month 2 (by omega))
  have hdlen : (padLeft 2 (decDigits d.day)).length = 2 :=
    padLeft_length 2 _ (decDigits_length_le d.day 2 (by omega))
  rw [pySeed, strftimeYmd, intOfDigits_append, intOfDigits_append, hmlen, hdlen,
    intOfDigits_padLeft, intOfDigits_padLeft, intOfDigits_padLeft,
    intOfDigits_decDigits, intOfDigits_decDigits, intOfDigits_decDigits]
  ring

/-- Witness for C4 at the spec's own example 2024-03-07 → 20240307. -/
theorem c4_seed_is_yyyymmdd_witness :
    isValidDate date0 ∧ pySeed date0 = 2024 * 10000 + 3 * 100 + 7 :=
  have hv : isValidDate date0 :=
    ⟨by decide, by decide, by decide, by decide, by decide, by decide⟩
  ⟨hv, c4_seed_is_yyyymmdd date0 hv⟩

/-! ## Claim C1: determinism of the daily selection -/

/-- Claim C1: the selection is a pure function of the store contents and the
date - two runs on equal stores and equal dates give identical output (no
other input, I/O or hidden state enters `select_daily_content`). -/
theorem c1_select_deterministic (fuel : Nat) (store1 store2 : Store) (d1 d2 : PyDate)
    (hs : store1 = store2) (hd : d1 = d2) :
    select_daily_content fuel store1 d1 = select_daily_content fuel store2 d2 := by
  rw [hs, hd]

/-- Witness for C1 at a concrete store and date. -/
theorem c1_select_deterministic_witness :
    select_daily_content 64 wStore date0 = select_daily_content 64 wStore date0 :=
  c1_select_deterministic 64 wStore wStore date0 date0 rfl rfl

/-! ## Claim C2: the quotes sample -/

/-- Injectivity of indexing on duplicate-free lists, lifted to `getD`. -/
lemma map_getD_nodup {l : List Entry} {idxs : List Nat} (hl : l.Nodup)
    (hb : ∀ i ∈ idxs, i < l.length) (hi : idxs.Nodup) :
    (idxs.map (fun i => l.getD i default)).Nodup := by
  refine List.Nodup.map_on ?_ hi
  intro x hx y hy hxy
  have hxl := hb x hx
  have hyl := hb y hy
  rw [List.getD_eq_getElem?_getD, List.getElem?_eq_getElem hxl, Option.getD_some,
    List.getD_eq_getElem?_getD, List.getElem?_eq_getElem hyl, Option.getD_some] at hxy
  exact (List.Nodup.getElem_inj_iff hl).mp hxy

/-- Claim C2 counterexample: a store whose quotes list holds the same entry
three times has ≥ 3 quotes, yet the selection on 2024-03-07 succeeds with
three pairwise-equal entries - the selected quotes are not pairwise distinct. -/
theorem c2_sample_counterexample :
    3 ≤ dupStore.quotes.length ∧
    select_daily_content 64 dupStore date0 = some ([eA, eA, eA], none) ∧
    ¬ List.Pairwise (fun a b => a ≠ b) [eA, eA, eA] :=
  ⟨by decide, selectEvalDup, by decide⟩

/-- Claim C2 (amended): whenever the selection succeeds, the quotes sequence
has length `min 3 n` and is a sample without replacement - its entries are
read off a duplicate-free list of in-range positions of the quotes list (so
they are pairwise distinct whenever the quotes list has no duplicate entries);
sampling from an empty quotes list succeeds with the empty sequence. -/
theorem c2_sample_without_replacement :
    (∀ fuel store today qs pm,
      select_daily_content fuel store today = some (qs, pm) →
      qs.length = min 3 store.quotes.length ∧
      ∃ idxs : List Nat, idxs.Nodup ∧ (∀ i ∈ idxs, i < store.quotes.length) ∧
        qs = idxs.map (fun i => store.quotes.getD i default) ∧
        (store.quotes.Nodup → qs.Nodup)) ∧
    (∀ fuel s, sample fuel [] (min 3 (List.length ([] : List Entry))) s = some ([], s)) := by
  constructor
  · intro fuel store today qs pm h
    obtain ⟨s1, hs, _⟩ := select_inversion h
    obtain ⟨hlen, idxs, hnd, hbo, hres⟩ := sample_spec hs
    exact ⟨hlen, idxs, hnd, hbo, hres,
      fun hql => hres ▸ map_getD_nodup hql hbo hnd⟩
  · intro fuel s
    rfl

/-- Witness for the amended C2 at a concrete successful selection. -/
theorem c2_sample_without_replacement_witness :
    [eA, eB, eC].length = min 3 wStore.quotes.length ∧
    ∃ idxs : List Nat, idxs.Nodup ∧ (∀ i ∈ idxs, i < wStore.quotes.length) ∧
      [eA, eB, eC] = idxs.map (fun i => wStore.quotes.getD i default) ∧
      (wStore.quotes.Nodup → [eA, eB, eC].Nodup) :=
  c2_sample_without_replacement.1 64 wStore date0 [eA, eB, eC] (some pX) selectEvalW

/-! ## Claim C3: the poem selection -/

/-- Claim C3: when the selection succeeds, a nonempty poems list yields a poem
drawn from that list, an empty poems list yields no poem (not an error), and
on the fully empty store the selection always succeeds with no quotes and no
poem. -/
theorem c3_poem_selection :
    (∀ fuel store today qs pm,
        select_daily_content fuel store today = some (qs, pm) →
        store.poems ≠ [] → ∃ p, pm = some p ∧ p ∈ store.poems) ∧
    (∀ fuel store today qs pm,
        select_daily_content fuel store today = some (qs, pm) →
        store.poems = [] → pm = none) ∧
    (∀ fuel today, select_daily_content fuel ⟨[], []⟩ today = some ([], none)) := by
  refine ⟨?_, ?_, ?_⟩
  · intro fuel store today qs pm h hne
    obtain ⟨s1, _, hc⟩ := select_inversion h
    rcases hc with ⟨he, _⟩ | ⟨_, p, s2, hch, hpm⟩
    · exact absurd he hne
    · exact ⟨p, hpm, choice_mem hch⟩
  · intro fuel store today qs pm h he
    obtain ⟨s1, _, hc⟩ := select_inversion h
    rcases hc with ⟨_, hpm⟩ | ⟨hne, _⟩
    · exact hpm
    · exact absurd he hne
  · intro fuel today
    rfl

/-- Witness for C3: the poem drawn on 2024-03-07 from the two-poem store is a
member of its poems list; the duplicate store (no poems) yields no poem; the
empty store yields the empty selection. -/
theorem c3_poem_selection_witness :
    (∃ p, (some pX : Option Entry) = some p ∧ p ∈ wStore.poems) ∧
    (none : Option Entry) = none ∧
    select_daily_content 64 ⟨[], []⟩ date0 = some ([], none) :=
  ⟨c3_poem_selection.1 64 wStore date0 [eA, eB, eC] (some pX) selectEvalW (by decide),
   c3_poem_selection.2.1 64 dupStore date0 [eA, eA, eA] none selectEvalDup rfl,
   c3_poem_selection.2.2 64 date0⟩

/-! ## Claim C5: loading with no backing file -/

/-- Claim C5 counterexample: the static generator's `load_data` opens the data
file without an existence check, so a missing backing file is an uncaught
`FileNotFoundError` there - not the empty store. -/
theorem c5_missing_file_counterexample :
    GenPage.load_data FileState.missing = LoadOutcome.fileNotFound ∧
    (GenPage.load_data FileState.missing).isFileNotFound = true :=
  ⟨rfl, rfl⟩

/-- Claim C5 (amended): the admin app's `load_data` returns the empty store
`{"quotes": [], "poems": []}` when no backing file exists, and never raises
`FileNotFoundError` on any file state; the generator's `load_data` raises on
a missing file. -/
theorem c5_missing_file_amended :
    App.load_data FileState.missing = LoadOutcome.ok emptyStoreJson ∧
    (∀ fs, (App.load_data fs).isFileNotFound = false) := by
  refine ⟨rfl, ?_⟩
  intro fs
  cases fs <;> rfl

/-! ## Claim C8: persistence round-trip -/

/-- Claim C8: for every persisted store document, loading it back and saving
the result reproduces exactly the original document - same entries, same
order (load returns the parsed document unchanged and save persists its
argument wholesale). -/
theorem c8_save_load_roundtrip (doc : Json) :
    (match App.load_data (FileState.content doc) with
      | LoadOutcome.ok d => some (App.save_data d)
      | LoadOutcome.parseError => none
      | LoadOutcome.fileNotFound => none) = some (FileState.content doc) := rfl

/-! ## Claims C6, C7, C10: the add-entry form -/

/-- Claim C6: a submission whose text or author is missing or blank after
stripping is rejected: the outcome is a validation error and `save_data` is
never reached, so nothing is persisted and the store is unchanged. -/
theorem c6_missing_fields_rejected (form : Form) (freshHex : String) (store : Store)
    (h : pyStrip (form.text.getD "") = "" ∨ pyStrip (form.author.getD "") = "") :
    add_entry form freshHex store = (none, AddOutcome.validationError) := by
  simp only [add_entry]
  rw [if_pos h]

/-- Witness for C6: a form with an absent text field is rejected. -/
theorem c6_missing_fields_rejected_witness :
    add_entry ⟨some "quote", none, some "Ada", none, none⟩ "1a2b3c4d" wStore =
      (none, AddOutcome.validationError) :=
  c6_missing_fields_rejected ⟨some "quote", none, some "Ada", none, none⟩ "1a2b3c4d" wStore
    (Or.inl (by decide))

/-- Claim C7: appending a quote with non-blank text and author and no optional
fields grows the quotes list by exactly one entry, whose id is the fresh hex
suffix prefixed with `q`, whose history is empty and whose images are the
empty sequence; the poems list is untouched. -/
theorem c7_append_quote (store : Store) (freshHex text author : String)
    (ht : pyStrip text ≠ "") (ha : pyStrip author ≠ "") :
    ∃ e : Entry,
      add_entry ⟨some "quote", some text, some author, none, none⟩ freshHex store =
        (some ⟨store.quotes ++ [e], store.poems⟩, AddOutcome.added "quote") ∧
      e.id = "q" ++ freshHex ∧ e.history = "" ∧ e.images = [] ∧
      (store.quotes ++ [e]).length = store.quotes.length + 1 := by
  refine ⟨⟨"q" ++ freshHex, pyStrip text, pyStrip author, "", []⟩, ?_, rfl, rfl, rfl,
    by simp⟩
  simp only [add_entry]
  rw [if_neg (by push_neg; exact ⟨ht, ha⟩)]
  rfl

/-- Witness for C7: the spec's example entry "Stay curious" by "Ada". -/
theorem c7_append_quote_witness :
    ∃ e : Entry,
      add_entry ⟨some "quote", some "Stay curious", some "Ada", none, none⟩ "1a2b3c4d" wStore =
        (some ⟨wStore.quotes ++ [e], wStore.poems⟩, AddOutcome.added "quote") ∧
      e.id = "q" ++ "1a2b3c4d" ∧ e.history = "" ∧ e.images = [] ∧
      (wStore.quotes ++ [e]).length = wStore.quotes.length + 1 :=
  c7_append_quote wStore "1a2b3c4d" "Stay curious" "Ada" (by decide) (by decide)

/-- Claim C10: the routing test is `entry_type == "quote"` and nothing else:
with valid text and author, any other `type` value - including an absent one -
produces a `p`-prefixed id appended to the poems list, and exactly the value
`"quote"` produces a `q`-prefixed id appended to the quotes list. -/
theorem c10_type_routing (form : Form) (freshHex : String) (store : Store)
    (ht : pyStrip (form.text.getD "") ≠ "") (ha : pyStrip (form.author.getD "") ≠ "") :
    (form.entry_type ≠ some "quote" →
      add_entry form freshHex store =
        (some ⟨store.quotes,
          store.poems ++ [⟨"p" ++ freshHex, pyStrip (form.text.getD ""),
            pyStrip (form.author.getD ""), pyStrip (form.history.getD ""),
            splitImages (pyStrip (form.images.getD ""))⟩]⟩, AddOutcome.added "poem")) ∧
    (form.entry_type = some "quote" →
      add_entry form freshHex store =
        (some ⟨store.quotes ++ [⟨"q" ++ freshHex, pyStrip (form.text.getD ""),
            pyStrip (form.author.getD ""), pyStrip (form.history.getD ""),
            splitImages (pyStrip (form.images.getD ""))⟩], store.poems⟩,
          AddOutcome.added "quote")) := by
  constructor
  · intro hne
    simp only [add_entry]
    rw [if_neg (by push_neg; exact ⟨ht, ha⟩), if_neg hne, if_neg hne]
  · intro heq
    simp only [add_entry]
    rw [if_neg (by push_neg; exact ⟨ht, ha⟩), if_pos heq, if_pos heq]

/-- Witness for C10: an absent `type` routes to the poems list with a
`p`-prefixed id. -/
theorem c10_type_routing_witness :
    add_entry ⟨none, some "T", some "A", none, none⟩ "1a2b3c4d" wStore =
      (some ⟨wStore.quotes,
        wStore.poems ++ [⟨"p" ++ "1a2b3c4d", pyStrip ((some "T").getD ""),
          pyStrip ((some "A").getD ""), pyStrip ((none : Option String).getD ""),
          splitImages (pyStrip ((none : Option String).getD ""))⟩]⟩, AddOutcome.added "poem") :=
  (c10_type_routing ⟨none, some "T", some "A", none, none⟩ "1a2b3c4d" wStore
    (by decide) (by decide)).1 (by simp)

/-! ## Claim C9: enrichment failures never break page generation -/

/-- Claim C9: every non-success fetch outcome (connection error, timeout,
non-success HTTP status, bad JSON body) makes `fetch_apod` return `None`; the
page is then rendered with both APOD sections empty, and whether generation
completes is independent of the fetch outcome. -/
theorem c9_enrichment_failure_harmless :
    (∀ o : FetchOutcome, o.isFailure = true →
      fetch_apod o = none ∧
      apodImageHtml (fetch_apod o) = "" ∧
      apodDescriptionHtml (fetch_apod o) = "" ∧
      ∀ todayStr qs pm, generate_html todayStr qs pm (fetch_apod o) =
        generate_html todayStr qs pm none) ∧
    (∀ fuel data today todayStr (o1 o2 : FetchOutcome),
      (generate_page_main fuel data today todayStr o1).isSome =
        (generate_page_main fuel data today todayStr o2).isSome) := by
  constructor
  · intro o ho
    have hf : fetch_apod o = none := by
      cases o
      · simp [FetchOutcome.isFailure] at ho
      all_goals rfl
    exact ⟨hf, by rw [hf]; rfl, by rw [hf]; rfl, fun todayStr qs pm => by rw [hf]⟩
  · intro fuel data today todayStr o1 o2
    rw [generate_page_main, generate_page_main]
    generalize select_daily_content fuel data today = o
    cases o with
    | none => rfl
    | some qp =>
      cases qp
      show true = true
      rfl

/-- Witness for C9: a timeout yields no APOD data, empty APOD sections, and
the same page as no enrichment at all. -/
theorem c9_enrichment_failure_harmless_witness :
    fetch_apod FetchOutcome.timeoutExpired = none ∧
    apodImageHtml (fetch_apod FetchOutcome.timeoutExpired) = "" ∧
    apodDescriptionHtml (fetch_apod FetchOutcome.timeoutExpired) = "" ∧
    ∀ todayStr qs pm, generate_html todayStr qs pm (fetch_apod FetchOutcome.timeoutExpired) =
      generate_html todayStr qs pm none :=
  c9_enrichment_failure_harmless.1 FetchOutcome.timeoutExpired rfl
